import Mathlib

/-!
Verification of the ai-loop pipeline orchestrator against its specification.

This file gives a shallow embedding, in Lean 4, of the control logic of
`src/ai_loop/core/orchestrator.py` together with the parts of
`src/ai_loop/core/models.py`, `src/ai_loop/core/artifacts.py` and
`src/ai_loop/web/server.py` that the orchestrator's observable behaviour
depends on.

Modelling conventions:
* Python `int` is embedded as `Int` (arbitrary precision, no overflow).
* Python `str` is embedded as `String` (or `List Char` where character-level
  reasoning is required).
* External collaborators (the plan generator, the critique runner, the git
  layer, the human approval resolution) are oracles: functions supplied as a
  `Collaborators` record.  A collaborator call that can raise is modelled as
  `Except String α`, the `String` being the exception message (`str(e)`).
* The two `while` loops of `run_pipeline` are compiled to structurally
  recursive functions on an explicit fuel argument so that they evaluate by
  kernel reduction; the fuel is computed from the very loop bound the Python
  code tests (`current_iteration <= max_iterations`, respectively
  `fix_iteration < MAX_FIX_ITERATIONS`), and unfolding lemmas below prove the
  fueled functions satisfy exactly the `while` recurrences.
* File-system writes performed by the `ArtifactManager` are modelled by the
  trace of emitted events plus explicit fields (`summary`, `completed`).
-/

namespace AiLoop

/-- models.py `GateResult`: result of a gate check (`pass`, `fail`, `error`). -/
inductive GateResult where
  | PASS
  | FAIL
  | ERROR
deriving DecidableEq

/-- models.py `RunStatus`: status of a pipeline run. -/
inductive RunStatus where
  | PENDING
  | PLANNING
  | PLAN_GATE
  | REFINING
  | IMPLEMENTING
  | CODE_GATE
  | FIXING
  | SUCCESS
  | FAILED
  | STUCK
deriving DecidableEq

/-- Modelled from the spec: `ApprovalMode` is imported by
`orchestrator.py` from `ai_loop.core.models`, but its definition is absent
from the `models.py` present in the source tree.  Spec §4.3 ("never block /
always block / block only when the automated gate result is FAIL") and the
web server's validation (`auto`, `gate_on_fail`, `always_gate`,
server.py line 850) fix its three values. -/
inductive ApprovalMode where
  | AUTO
  | ALWAYS_GATE
  | GATE_ON_FAIL
deriving DecidableEq

/-- models.py `CritiqueResult`: structured output of a critique collaborator.
The `diff_instructions` and `rubric_breakdown` fields are omitted: they are
informational only and are never read by the gate logic (spec §3). -/
structure CritiqueResult where
  confidence : Int
  approved : Bool
  blockers : List String
  warnings : List String
  feedback : String
deriving DecidableEq

/-- models.py `PlanVersion`: one version of the implementation plan.
`hash` is filled in by `__post_init__` from the content (see `mkPlanVersion`);
the timestamp is not modelled. -/
structure PlanVersion where
  version : Int
  content : String
  hash : String
deriving DecidableEq

/-- models.py `PlanVersion.__post_init__`: the content hash is a deterministic
digest of the content.  The digest function (`sha256(...)[:16]`) is abstracted
as the parameter `hashFn`. -/
def mkPlanVersion (hashFn : String → String) (version : Int) (content : String) : PlanVersion :=
  { version := version, content := content, hash := hashFn content }

/-- models.py `RunContext`: the mutable record of one pipeline execution.
Only the fields read or written by the orchestrator's control logic are
modelled; paths, the issue reference and timestamps are not (the two
timestamps are replaced by the booleans `started` / `completed`, meaning
"the timestamp has been stamped").  The fields `approval_mode` and
`human_feedback` are modelled from the spec (§3: configuration snapshot and
"transient human-feedback string"): `orchestrator.py` reads and writes them
but the `models.py` in the source tree does not declare them. -/
structure RunContext where
  dry_run : Bool
  max_iterations : Int
  confidence_threshold : Int
  stable_passes : Int
  approval_mode : ApprovalMode
  status : RunStatus
  current_iteration : Int
  stable_pass_count : Int
  plan_versions : List PlanVersion
  plan_gates : List CritiqueResult
  code_gates : List CritiqueResult
  final_plan : String
  error_message : String
  human_feedback : String
  started : Bool
  completed : Bool
deriving DecidableEq

/-- orchestrator.py `create_context` (runtime-state part): a fresh context has
`status = PENDING`, zero counters, empty histories and empty strings. -/
def create_context (dry_run : Bool) (max_iterations : Int) (confidence_threshold : Int)
    (stable_passes : Int) (approval_mode : ApprovalMode) : RunContext :=
  { dry_run := dry_run
    max_iterations := max_iterations
    confidence_threshold := confidence_threshold
    stable_passes := stable_passes
    approval_mode := approval_mode
    status := RunStatus.PENDING
    current_iteration := 0
    stable_pass_count := 0
    plan_versions := []
    plan_gates := []
    code_gates := []
    final_plan := ""
    error_message := ""
    human_feedback := ""
    started := false
    completed := false }

/-- orchestrator.py `_check_gate` (lines 113-121):
PASS iff `critique.approved and critique.confidence >= threshold and not critique.blockers`. -/
def check_gate (critique : CritiqueResult) (threshold : Int) : GateResult :=
  if critique.approved = true ∧ threshold ≤ critique.confidence ∧ critique.blockers = [] then
    GateResult.PASS
  else
    GateResult.FAIL

/-- orchestrator.py `_detect_stuck` (lines 123-130): false when fewer than 3
plan versions exist, otherwise true iff the hashes of the last 3 versions,
collected into a set, form a single element (`len(set(recent_hashes)) == 1`,
embedded via `List.dedup`). -/
def detect_stuck (ctx : RunContext) : Bool :=
  if ctx.plan_versions.length < 3 then false
  else
    let recent_hashes := (ctx.plan_versions.drop (ctx.plan_versions.length - 3)).map PlanVersion.hash
    recent_hashes.dedup.length == 1

/-- orchestrator.py `_should_block_at_gate` (lines 132-151).  The Python
function also receives the critique, which it never reads. -/
def should_block_at_gate (ctx : RunContext) (gate_result : GateResult) : Bool :=
  match ctx.approval_mode with
  | ApprovalMode.AUTO => false
  | ApprovalMode.ALWAYS_GATE => true
  | ApprovalMode.GATE_ON_FAIL => gate_result == GateResult.FAIL

/-- The external collaborators of `run_pipeline`, as oracles.
`generate_plan`, `refine_plan`, `implement`, `fix_code` stand for the Claude
runner, `plan_critique` / `code_critique` for the OpenAI critique runner,
`get_diff` for the git layer and `resolution` for the human decision consumed
by `_wait_for_gate_resolution` (an `(action, feedback)` pair, indexed by the
number of earlier blocking gates in the run).  Indexed oracles receive the
number of earlier calls of the same kind, so distinct calls may answer
differently, as the real collaborators do.  `Except.error msg` models the
call raising an exception whose `str` is `msg`. -/
structure Collaborators where
  hashFn : String → String
  generate_plan : Except String String
  plan_critique : Nat → Except String CritiqueResult
  refine_plan : Nat → Except String String
  code_critique : Nat → Except String CritiqueResult
  implement : Except String String
  fix_code : Nat → Except String String
  get_diff : Except String String
  resolution : Nat → String × String

/-- Interpreter state: the run context, the trace of emitted event types
(artifacts.py `log_event`, append-only), and the number of gate resolutions
consumed so far (the cursor into the `resolution` oracle). -/
structure PState where
  ctx : RunContext
  trace : List String
  nres : Nat
deriving DecidableEq

/-- artifacts.py `log_event` via the orchestrator's local `log`: append one
event record to the trace. -/
def logEvent (s : PState) (e : String) : PState :=
  { s with trace := s.trace ++ [e] }

/-- orchestrator.py `update_status` / direct `ctx.status = ...` assignment. -/
def setStatus (s : PState) (st : RunStatus) : PState :=
  { s with ctx := { s.ctx with status := st } }

/-- Result of one iteration of a `while` body: continue looping (`next`),
`break` out (`brk`), or an exception propagating to the `try` boundary
(`raised`). -/
inductive BodyResult where
  | next (s : PState)
  | brk (s : PState)
  | raised (s : PState) (msg : String)
deriving DecidableEq

/-- Result of a phase of the `try` body of `run_pipeline`: normal completion
or an exception carrying its message. -/
inductive Outcome where
  | ok (s : PState)
  | err (s : PState) (msg : String)
deriving DecidableEq

/-- orchestrator.py `_wait_for_gate_resolution` as used inside `run_pipeline`
(lines 334-336, 461-463): emits `gate_pending`, obtains the `(action,
feedback)` pair (from the oracle; the polling loop itself is modelled
separately, see `wait_loop`), stores a non-empty feedback into
`ctx.human_feedback` (line 215-216), emits `gate_resolved`, and returns the
action. -/
def gate_resolution_step (collab : Collaborators) (s : PState) : PState × String :=
  let ar := collab.resolution s.nres
  let s := logEvent s "gate_pending"
  let s := { s with ctx := { s.ctx with human_feedback :=
    if ar.2 ≠ "" then ar.2 else s.ctx.human_feedback } }
  let s := logEvent s "gate_resolved"
  ({ s with nres := s.nres + 1 }, ar.1)

/-- orchestrator.py lines 338-342 and 465-469: the `reject` branch at a
blocking gate — status FAILED, error message from the (possibly just stored)
human feedback, `pipeline_rejected` event, then `break`. -/
def reject_break (s : PState) : BodyResult :=
  let s := setStatus s RunStatus.FAILED
  let s := { s with ctx := { s.ctx with error_message :=
    "Rejected by user: " ++ (if s.ctx.human_feedback ≠ "" then s.ctx.human_feedback else "No feedback") } }
  BodyResult.brk (logEvent s "pipeline_rejected")

/-- orchestrator.py lines 368-402: the tail of the plan-gate loop body after
the PASS/FAIL bookkeeping — the stuck check, then (if not stuck) the
transition to REFINING, the refine call and the append of the next plan
version.  Note the Python places this code after BOTH branches of the
PASS/FAIL `if`, so it also runs after a PASS whose stable count is still
below the threshold. -/
def plan_gate_stuck_refine (collab : Collaborators) (s : PState) : BodyResult :=
  if detect_stuck s.ctx then
    let s := setStatus s RunStatus.STUCK
    let s := { s with ctx := { s.ctx with error_message := "Pipeline stuck: plan hash repeated 3 times" } }
    BodyResult.brk (logEvent s "pipeline_stuck")
  else
    let s := setStatus s RunStatus.REFINING
    let s := { s with ctx := { s.ctx with current_iteration := s.ctx.current_iteration + 1 } }
    let s := { s with ctx := { s.ctx with human_feedback := "" } }
    match collab.refine_plan s.ctx.plan_versions.length with
    | Except.error msg => BodyResult.raised s msg
    | Except.ok refined =>
        let s := { s with ctx := { s.ctx with plan_versions :=
          s.ctx.plan_versions ++ [mkPlanVersion collab.hashFn s.ctx.current_iteration refined] } }
        let s := logEvent s "claude_completed"
        BodyResult.next (logEvent s "plan_refined")

/-- orchestrator.py lines 351-402: the plan-gate loop body after the gate
verdict (possibly overridden by a human resolution) is settled.  On PASS the
stable counter is incremented and, at the threshold, the latest plan version
is frozen as `final_plan` (`ctx.plan_versions[-1].content`; an empty history
would raise an IndexError) and the loop breaks; on FAIL the stable counter
resets; either way the stuck check and the refine follow. -/
def plan_gate_after_gate (collab : Collaborators) (s : PState) (gate_result : GateResult) : BodyResult :=
  if gate_result = GateResult.PASS then
    let s := { s with ctx := { s.ctx with stable_pass_count := s.ctx.stable_pass_count + 1 } }
    let s := logEvent s "plan_gate_passed"
    if s.ctx.stable_passes ≤ s.ctx.stable_pass_count then
      match s.ctx.plan_versions.getLast? with
      | none => BodyResult.raised s "list index out of range"
      | some p =>
          let s := { s with ctx := { s.ctx with final_plan := p.content } }
          BodyResult.brk (logEvent s "plan_approved")
    else
      plan_gate_stuck_refine collab s
  else
    let s := { s with ctx := { s.ctx with stable_pass_count := 0 } }
    let s := logEvent s "plan_gate_failed"
    plan_gate_stuck_refine collab s

/-- orchestrator.py lines 333-349: the blocking branch of the plan gate —
consult the approval resolution; `reject` terminates the run, `approve`
overrides the verdict to PASS, `request_changes` overrides it to FAIL, any
other action leaves the automated verdict in place. -/
def plan_gate_blocked (collab : Collaborators) (s : PState) (gate_result : GateResult) :
    BodyResult :=
  let sa := gate_resolution_step collab s
  if sa.2 = "reject" then
    reject_break sa.1
  else
    plan_gate_after_gate collab sa.1
      (if sa.2 = "approve" then GateResult.PASS
       else if sa.2 = "request_changes" then GateResult.FAIL
       else gate_result)

/-- orchestrator.py lines 318-402: the plan-gate body once the critique value
is in hand — record it, evaluate the gate, block for a human if the policy
requires, then `plan_gate_after_gate`. -/
def plan_gate_with_critique (collab : Collaborators) (s : PState) (critique : CritiqueResult) :
    BodyResult :=
  let s := { s with ctx := { s.ctx with plan_gates := s.ctx.plan_gates ++ [critique] } }
  let s := logEvent s "plan_gate_result"
  let gate_result := check_gate critique s.ctx.confidence_threshold
  if should_block_at_gate s.ctx gate_result then
    plan_gate_blocked collab s gate_result
  else
    plan_gate_after_gate collab s gate_result

/-- orchestrator.py lines 304-402: one iteration of the PLAN_GATE `while`
body — status update, `plan_gate_started` event, critique call (on the latest
plan version, indexed here by the number of earlier plan-gate critiques),
then `plan_gate_with_critique`. -/
def plan_gate_body (collab : Collaborators) (s : PState) : BodyResult :=
  match collab.plan_critique s.ctx.plan_gates.length with
  | Except.error msg =>
      BodyResult.raised (logEvent (setStatus s RunStatus.PLAN_GATE) "plan_gate_started") msg
  | Except.ok critique =>
      plan_gate_with_critique collab
        (logEvent (setStatus s RunStatus.PLAN_GATE) "plan_gate_started") critique

/-- The PLAN_GATE `while` loop (orchestrator.py line 304:
`while ctx.current_iteration <= ctx.max_iterations`), compiled to structural
recursion on fuel.  `plan_gate_loop` below instantiates the fuel with the
number of remaining admissible iterations; `plan_gate_loop_eq` proves the
pair satisfies exactly the `while` recurrence. -/
def plan_gate_loop_fuel (collab : Collaborators) : Nat → PState → Outcome
  | 0, s => Outcome.ok s
  | Nat.succ fuel, s =>
      match plan_gate_body collab s with
      | BodyResult.next s' => plan_gate_loop_fuel collab fuel s'
      | BodyResult.brk s' => Outcome.ok s'
      | BodyResult.raised s' msg => Outcome.err s' msg

/-- The PLAN_GATE loop from a given state: the body runs while
`current_iteration <= max_iterations`, and each continuing iteration
increments `current_iteration` by exactly one (see
`plan_gate_body_next_iter`), so the remaining iteration count is
`(max_iterations + 1 - current_iteration).toNat`. -/
def plan_gate_loop (collab : Collaborators) (s : PState) : Outcome :=
  plan_gate_loop_fuel collab (s.ctx.max_iterations + 1 - s.ctx.current_iteration).toNat s

/-- orchestrator.py line 33: `MAX_FIX_ITERATIONS = 3`. -/
def MAX_FIX_ITERATIONS : Int := 3

/-- Result of one CODE_GATE `while` body iteration: `next` carries the value
of the local `fix_iteration` variable for the next loop test. -/
inductive CodeBodyResult where
  | next (s : PState) (fix_iteration : Int)
  | brk (s : PState)
  | raised (s : PState) (msg : String)
deriving DecidableEq

/-- orchestrator.py lines 475-512: the tail of the CODE_GATE loop body after
the (possibly human-overridden) verdict.  PASS: terminal SUCCESS and break.
FAIL: increment `fix_iteration`; if retries remain transition to FIXING,
clear the human feedback and call the fixer; otherwise set the terminal
FAILED state with the "fixes exhausted" message (no `break`: the `while`
condition exits the loop on the next test). -/
def code_gate_after (collab : Collaborators) (s : PState) (gate_result : GateResult)
    (fix_iteration : Int) : CodeBodyResult :=
  if gate_result = GateResult.PASS then
    CodeBodyResult.brk (logEvent (setStatus s RunStatus.SUCCESS) "code_gate_passed")
  else
    let s := logEvent s "code_gate_failed"
    let fix_iteration := fix_iteration + 1
    if fix_iteration < MAX_FIX_ITERATIONS then
      let s := logEvent (setStatus s RunStatus.FIXING) "fixing_started"
      let s := { s with ctx := { s.ctx with human_feedback := "" } }
      match collab.fix_code fix_iteration.toNat with
      | Except.error msg => CodeBodyResult.raised s msg
      | Except.ok _fix_log =>
          let s := logEvent s "claude_completed"
          CodeBodyResult.next (logEvent s "fix_applied") fix_iteration
    else
      let s := setStatus s RunStatus.FAILED
      let s := { s with ctx := { s.ctx with error_message := "Code fixes exhausted after 3 attempts" } }
      CodeBodyResult.next (logEvent s "code_fixes_exhausted") fix_iteration

/-- orchestrator.py lines 460-473: the blocking branch of the code gate;
same resolution semantics as `plan_gate_blocked`. -/
def code_gate_blocked (collab : Collaborators) (s : PState) (gate_result : GateResult)
    (fix_iteration : Int) : CodeBodyResult :=
  let sa := gate_resolution_step collab s
  if sa.2 = "reject" then
    match reject_break sa.1 with
    | BodyResult.brk s' => CodeBodyResult.brk s'
    | BodyResult.next s' => CodeBodyResult.next s' fix_iteration
    | BodyResult.raised s' m => CodeBodyResult.raised s' m
  else
    code_gate_after collab sa.1
      (if sa.2 = "approve" then GateResult.PASS
       else if sa.2 = "request_changes" then GateResult.FAIL
       else gate_result) fix_iteration

/-- orchestrator.py lines 446-512: the code-gate body once the critique value
is in hand. -/
def code_gate_with_critique (collab : Collaborators) (s : PState) (critique : CritiqueResult)
    (fix_iteration : Int) : CodeBodyResult :=
  let s := { s with ctx := { s.ctx with code_gates := s.ctx.code_gates ++ [critique] } }
  let s := logEvent s "code_gate_result"
  let gate_result := check_gate critique s.ctx.confidence_threshold
  if should_block_at_gate s.ctx gate_result then
    code_gate_blocked collab s gate_result fix_iteration
  else
    code_gate_after collab s gate_result fix_iteration

/-- orchestrator.py lines 429-512: one iteration of the CODE_GATE `while`
body — status update, diff retrieval, code critique, then
`code_gate_with_critique`. -/
def code_gate_body (collab : Collaborators) (s : PState) (fix_iteration : Int) : CodeBodyResult :=
  match collab.get_diff with
  | Except.error msg =>
      CodeBodyResult.raised (logEvent (setStatus s RunStatus.CODE_GATE) "code_gate_started") msg
  | Except.ok _git_diff =>
      match collab.code_critique s.ctx.code_gates.length with
      | Except.error msg =>
          CodeBodyResult.raised (logEvent (setStatus s RunStatus.CODE_GATE) "code_gate_started")
            msg
      | Except.ok critique =>
          code_gate_with_critique collab
            (logEvent (setStatus s RunStatus.CODE_GATE) "code_gate_started") critique
            fix_iteration

/-- The CODE_GATE `while` loop (orchestrator.py line 429:
`while fix_iteration < MAX_FIX_ITERATIONS`), compiled to structural recursion
on fuel; see `code_gate_loop` / `code_gate_loop_eq`. -/
def code_gate_loop_fuel (collab : Collaborators) : Nat → PState → Int → Outcome
  | 0, s, _ => Outcome.ok s
  | Nat.succ fuel, s, fix_iteration =>
      match code_gate_body collab s fix_iteration with
      | CodeBodyResult.next s' fi' => code_gate_loop_fuel collab fuel s' fi'
      | CodeBodyResult.brk s' => Outcome.ok s'
      | CodeBodyResult.raised s' msg => Outcome.err s' msg

/-- The CODE_GATE loop from a given state and `fix_iteration`. -/
def code_gate_loop (collab : Collaborators) (s : PState) (fix_iteration : Int) : Outcome :=
  code_gate_loop_fuel collab (MAX_FIX_ITERATIONS - fix_iteration).toNat s fix_iteration

/-- orchestrator.py lines 262-301: the part of the `try` body before the
PLAN_GATE loop — issue-pack snapshot and start events, then the PLANNING
phase: `current_iteration = 1` and the initial plan recorded as version 1.
Git isolation (worktree/branch creation) has no observable effect on the
modelled state and is omitted. -/
def planning_phase (collab : Collaborators) (s : PState) : Outcome :=
  let s := logEvent s "pipeline_started"
  let s := logEvent (setStatus s RunStatus.PLANNING) "planning_started"
  match collab.generate_plan with
  | Except.error msg => Outcome.err s msg
  | Except.ok plan_content =>
      let s := { s with ctx := { s.ctx with current_iteration := 1 } }
      let s := { s with ctx := { s.ctx with plan_versions :=
        s.ctx.plan_versions ++ [mkPlanVersion collab.hashFn 1 plan_content] } }
      let s := logEvent s "claude_completed"
      Outcome.ok (logEvent s "plan_generated")

/-- orchestrator.py lines 410-516: the implementation phase and its dry-run
short-circuit.  `if ctx.final_plan and not ctx.dry_run` — Python string
truthiness: the branch is taken only when `final_plan` is non-empty. -/
def implementation_phase (collab : Collaborators) (s : PState) : Outcome :=
  if s.ctx.final_plan ≠ "" ∧ s.ctx.dry_run = false then
    let s := logEvent (setStatus s RunStatus.IMPLEMENTING) "implementation_started"
    match collab.implement with
    | Except.error msg => Outcome.err s msg
    | Except.ok _implement_log =>
        let s := logEvent s "claude_completed"
        let s := logEvent s "implementation_completed"
        code_gate_loop collab s 0
  else if s.ctx.final_plan ≠ "" ∧ s.ctx.dry_run = true then
    Outcome.ok (logEvent (setStatus s RunStatus.SUCCESS) "dry_run_completed")
  else
    Outcome.ok s

/-- orchestrator.py lines 404-408, the iteration-exhaustion check after the
PLAN_GATE loop: `if ctx.current_iteration > ctx.max_iterations and not
ctx.final_plan` (Python string truthiness: the second conjunct is
`final_plan == ""`) sets the FAILED status and the bound-citing message. -/
def max_iterations_check (s : PState) : PState :=
  if s.ctx.max_iterations < s.ctx.current_iteration ∧ s.ctx.final_plan = "" then
    let msg := "Max iterations (" ++ toString s.ctx.max_iterations ++ ") reached without approval"
    logEvent { s with ctx := { s.ctx with status := RunStatus.FAILED, error_message := msg } }
      "max_iterations_reached"
  else s

/-- orchestrator.py lines 262-516: the whole `try` body of `run_pipeline` —
planning, the PLAN_GATE loop, the iteration-exhaustion check, and the
implementation phase. -/
def pipeline_body (collab : Collaborators) (s : PState) : Outcome :=
  match planning_phase collab s with
  | Outcome.err s msg => Outcome.err s msg
  | Outcome.ok s =>
      match plan_gate_loop collab s with
      | Outcome.err s msg => Outcome.err s msg
      | Outcome.ok s => implementation_phase collab (max_iterations_check s)

/-- The terminal summary written by artifacts.py `write_summary` in the
`finally` block: the fields of `RunSummary` that the control logic
determines. -/
structure RunSummaryModel where
  status : RunStatus
  error_message : String
  iterations : Int
deriving DecidableEq

/-- The observable result of `run_pipeline`: the final context, the full
event trace, and the terminal summary (`none` would mean the summary was
never written; `run_pipeline` always writes it). -/
structure RunResult where
  ctx : RunContext
  trace : List String
  summary : Option RunSummaryModel
deriving DecidableEq

/-- orchestrator.py lines 523-527, the `finally` block: stamp `completed_at`
(modelled by the `completed` flag), write the terminal summary, emit the
final `pipeline_completed` trace event. -/
def finalize_run (afterTry : PState) : RunResult :=
  let s := { afterTry with ctx := { afterTry.ctx with completed := true } }
  let summary : RunSummaryModel :=
    { status := s.ctx.status, error_message := s.ctx.error_message,
      iterations := s.ctx.current_iteration }
  let s := logEvent s "pipeline_completed"
  { ctx := s.ctx, trace := s.trace, summary := some summary }

/-- orchestrator.py `run_pipeline` (lines 235-537): stamp `started_at`, run
the `try` body; `except Exception` (lines 518-521) converts an uncaught
exception into status FAILED with the exception's message and a
`pipeline_error` event; then the `finally` block (`finalize_run`).  The
best-effort Linear writeback (lines 534-535) swallows its own errors and
changes nothing modelled. -/
def run_pipeline (collab : Collaborators) (ctx0 : RunContext) : RunResult :=
  finalize_run
    (match pipeline_body collab { ctx := { ctx0 with started := true }, trace := [], nres := 0 } with
     | Outcome.ok s => s
     | Outcome.err s msg =>
         logEvent { s with ctx := { s.ctx with status := RunStatus.FAILED, error_message := msg } }
           "pipeline_error")

/-- orchestrator.py line 192: `timeout = 30 * 60` seconds. -/
def GATE_RESOLUTION_TIMEOUT : Int := 30 * 60

/-- orchestrator.py `_wait_for_gate_resolution` polling loop (lines 195-233),
as a function of the observations made at each poll iteration:
`elapsedAt n` is `(datetime.now() - start_time).total_seconds()` at the n-th
iteration and `userFile n` is the parsed `(action, feedback)` content of
`gate_resolution.json` if a well-formed user-written file is present then
(`none` covers both an absent file and a `JSONDecodeError`/`IOError`, which
the Python swallows and keeps polling; a missing `action` key defaults to
`reject` at parse time).  When `elapsed > timeout` the loop itself writes a
resolution file `{"action": "reject", "feedback": "Timed out (30m)"}`,
overwriting any existing file, and the immediately following existence check
reads it back.  The sleeps (2s, then 5s after 60s) only pace the iterations
and do not affect the returned value.  The Python loop is `while True`; the
model observes `fuel` iterations and returns `none` if the loop is still
running after that window. -/
def wait_loop (elapsedAt : Nat → Int) (userFile : Nat → Option (String × String)) :
    Nat → Nat → Option (String × String)
  | 0, _ => none
  | Nat.succ fuel, n =>
      let elapsed := elapsedAt n
      let fileNow :=
        if GATE_RESOLUTION_TIMEOUT < elapsed then some ("reject", "Timed out (30m)")
        else userFile n
      match fileNow with
      | some af => some af
      | none => wait_loop elapsedAt userFile fuel (n + 1)

/-- web/server.py `_verify_pid` (lines 197-218): the pid belongs to the lock
only if `os.kill(pid, 0)` succeeds (`alive`), `ps -p pid -o command=` exits 0
with some command line (`psCmd`), and the expected command prefix — the first
three argv entries joined by spaces, or all of them when fewer than three —
occurs as a substring of that command line. -/
def expected_cmd_substr (expected_cmd : List String) : String :=
  if 3 ≤ expected_cmd.length then String.intercalate " " (expected_cmd.take 3)
  else String.intercalate " " expected_cmd

/-- web/server.py `_verify_pid`: see `expected_cmd_substr`.  `alive pid`
models `os.kill(pid, 0)` not raising; `psCmd pid` models a zero exit of `ps`
together with its stripped stdout. -/
def verify_pid (alive : Int → Bool) (psCmd : Int → Option String)
    (pid : Int) (expected_cmd : List String) : Bool :=
  if alive pid then
    match psCmd pid with
    | none => false
    | some actual_cmd =>
        decide ((expected_cmd_substr expected_cmd).toList <:+: actual_cmd.toList)
  else false

/-- web/server.py `_start_runs` lines 1160-1165: for an existing lock whose
recorded pid is non-null, the lock is classified stale exactly when
`_verify_pid` fails, and a stale lock is unlinked and re-acquired
(`reclaimed`) while a verified one is rejected as genuinely held. -/
inductive LockDecision where
  | reclaimed
  | rejected
deriving DecidableEq

/-- web/server.py `_start_runs` (pid-present branch, lines 1160-1181). -/
def lock_decision_with_pid (alive : Int → Bool) (psCmd : Int → Option String)
    (pid : Int) (cmd : List String) : LockDecision :=
  if verify_pid alive psCmd pid cmd then LockDecision.rejected else LockDecision.reclaimed

/-- Test fixture: collaborators whose plan generator raises with a timeout
message; every other collaborator answers benignly. -/
def fixture_failing_gen : Collaborators :=
  { hashFn := id
    generate_plan := Except.error "Claude timed out after 600s"
    plan_critique := fun _ => Except.ok ⟨0, false, [], [], ""⟩
    refine_plan := fun _ => Except.ok "p"
    code_critique := fun _ => Except.ok ⟨0, false, [], [], ""⟩
    implement := Except.ok "log"
    fix_code := fun _ => Except.ok "log"
    get_diff := Except.ok ""
    resolution := fun _ => ("approve", "") }

/-- Test fixture: a collaborator set whose plan generator returns the empty
string and whose critique always approves with confidence 100. -/
def fixture_empty_plan : Collaborators :=
  { hashFn := id
    generate_plan := Except.ok ""
    plan_critique := fun _ => Except.ok ⟨100, true, [], [], ""⟩
    refine_plan := fun _ => Except.ok ""
    code_critique := fun _ => Except.ok ⟨100, true, [], [], ""⟩
    implement := Except.ok "log"
    fix_code := fun _ => Except.ok "log"
    get_diff := Except.ok ""
    resolution := fun _ => ("approve", "") }

/-- The state at which `fixture_failing_gen`'s pipeline body raises. -/
def fixture_err_state : PState :=
  logEvent
    (setStatus
      { ctx := { create_context true 5 97 2 ApprovalMode.AUTO with started := true }
        trace := ["pipeline_started"]
        nres := 0 }
      RunStatus.PLANNING)
    "planning_started"

/-- Test fixture: a mid-loop plan-gate state whose three plan versions carry
the same content (hence, under `hashFn = id`, the same hash). -/
def fixture_stuck_state : PState :=
  { ctx := { create_context false 5 97 2 ApprovalMode.AUTO with
      status := RunStatus.REFINING
      current_iteration := 3
      plan_versions := [mkPlanVersion id 1 "p", mkPlanVersion id 2 "p", mkPlanVersion id 3 "p"]
      started := true }
    trace := []
    nres := 0 }

/-- Test fixture: a mid-loop plan-gate state with a single plan version and no
stable passes accumulated yet. -/
def fixture_pass_state : PState :=
  { ctx := { create_context false 5 97 2 ApprovalMode.AUTO with
      status := RunStatus.PLANNING
      current_iteration := 1
      plan_versions := [mkPlanVersion id 1 "p"]
      started := true }
    trace := []
    nres := 0 }

/-- Test fixture: a collaborator set whose critiques always pass with
confidence 100, whose resolver answers `request_changes`, and whose refiner
returns a changed plan text. -/
def fixture_rc : Collaborators :=
  { hashFn := id
    generate_plan := Except.ok "p"
    plan_critique := fun _ => Except.ok ⟨100, true, [], [], ""⟩
    refine_plan := fun _ => Except.ok "q"
    code_critique := fun _ => Except.ok ⟨100, true, [], [], ""⟩
    implement := Except.ok "log"
    fix_code := fun _ => Except.ok "log"
    get_diff := Except.ok ""
    resolution := fun _ => ("request_changes", "") }

/-- Test fixture: a mid-loop state under the GATE_ON_FAIL approval policy with
one plan version and `stable_passes = 1`. -/
def fixture_gate_state : PState :=
  { ctx := { create_context false 5 97 1 ApprovalMode.GATE_ON_FAIL with
      status := RunStatus.PLANNING
      current_iteration := 1
      plan_versions := [mkPlanVersion id 1 "p"]
      started := true }
    trace := []
    nres := 0 }

/-- Test fixture: a mid-loop state under the ALWAYS_GATE approval policy with
one plan version. -/
def fixture_always_state : PState :=
  { ctx := { create_context false 5 97 2 ApprovalMode.ALWAYS_GATE with
      status := RunStatus.PLANNING
      current_iteration := 1
      plan_versions := [mkPlanVersion id 1 "p"]
      started := true }
    trace := []
    nres := 0 }

/-- Test fixture: a collaborator set whose plan critique always fails and
whose refiner returns a plan text of a fresh length on every call (so all
plan-version hashes are pairwise distinct under `hashFn = id`). -/
def fixture_changing : Collaborators :=
  { hashFn := id
    generate_plan := Except.ok ""
    plan_critique := fun _ => Except.ok ⟨0, false, [], [], ""⟩
    refine_plan := fun n => Except.ok (String.mk (List.replicate n 'a'))
    code_critique := fun _ => Except.ok ⟨0, false, [], [], ""⟩
    implement := Except.ok "log"
    fix_code := fun _ => Except.ok "log"
    get_diff := Except.ok ""
    resolution := fun _ => ("approve", "") }

/-! ## Theorems -/

theorem check_gate_pass_iff (c : CritiqueResult) (threshold : Int) :
    check_gate c threshold = GateResult.PASS ↔
      (c.approved = true ∧ threshold ≤ c.confidence ∧ c.blockers = []) := by
  unfold check_gate
  split
  · simp_all
  · simp_all

theorem check_gate_pass_or_fail (c : CritiqueResult) (threshold : Int) :
    check_gate c threshold = GateResult.PASS ∨ check_gate c threshold = GateResult.FAIL := by
  unfold check_gate
  split <;> simp

/-- C1: `_check_gate` returns PASS iff `critique.approved` is true AND
`critique.confidence >= threshold` AND `critique.blockers` is empty; it never
returns ERROR; confidence exactly at the threshold (with the other two
conditions) yields PASS, confidence one below yields FAIL, and flipping any
single one of the three conditions to its failing value yields FAIL. -/
theorem C1_check_gate_conjunction (c : CritiqueResult) (threshold : Int) :
    (check_gate c threshold = GateResult.PASS ↔
        (c.approved = true ∧ threshold ≤ c.confidence ∧ c.blockers = [])) ∧
    (check_gate c threshold = GateResult.PASS ∨ check_gate c threshold = GateResult.FAIL) ∧
    (c.approved = true → c.blockers = [] → c.confidence = threshold →
        check_gate c threshold = GateResult.PASS) ∧
    (c.approved = true → c.blockers = [] → c.confidence = threshold - 1 →
        check_gate c threshold = GateResult.FAIL) ∧
    (c.approved = false → check_gate c threshold = GateResult.FAIL) ∧
    (c.blockers ≠ [] → check_gate c threshold = GateResult.FAIL) ∧
    (c.confidence < threshold → check_gate c threshold = GateResult.FAIL) := by
  have hiff := check_gate_pass_iff c threshold
  have hpf := check_gate_pass_or_fail c threshold
  refine ⟨hiff, hpf, ?_, ?_, ?_, ?_, ?_⟩
  · intro h1 h2 h3
    exact hiff.mpr ⟨h1, by omega, h2⟩
  · intro h1 h2 h3
    rcases hpf with hp | hf
    · exfalso
      have := (hiff.mp hp).2.1
      omega
    · exact hf
  · intro h1
    rcases hpf with hp | hf
    · exfalso
      have := (hiff.mp hp).1
      rw [h1] at this
      exact Bool.false_ne_true this
    · exact hf
  · intro h1
    rcases hpf with hp | hf
    · exact absurd (hiff.mp hp).2.2 h1
    · exact hf
  · intro h1
    rcases hpf with hp | hf
    · exfalso
      have := (hiff.mp hp).2.1
      omega
    · exact hf

theorem C1_check_gate_conjunction_witness :
    check_gate ⟨97, true, [], [], ""⟩ 97 = GateResult.PASS ∧
    check_gate ⟨96, true, [], [], ""⟩ 97 = GateResult.FAIL ∧
    check_gate ⟨98, false, [], [], ""⟩ 97 = GateResult.FAIL ∧
    check_gate ⟨98, true, ["missing error handling"], [], ""⟩ 97 = GateResult.FAIL :=
  ⟨(C1_check_gate_conjunction ⟨97, true, [], [], ""⟩ 97).2.2.1 rfl rfl rfl,
   (C1_check_gate_conjunction ⟨96, true, [], [], ""⟩ 97).2.2.2.1 rfl rfl (by decide),
   (C1_check_gate_conjunction ⟨98, false, [], [], ""⟩ 97).2.2.2.2.1 rfl,
   (C1_check_gate_conjunction ⟨98, true, ["missing error handling"], [], ""⟩ 97).2.2.2.2.2.1
     (by decide)⟩

/-- C7: for every blocking gate at which no well-formed resolution file is
ever written by a user, once the elapsed time observed at some poll iteration
inside the observation window exceeds the 30-minute timeout, the resolver
returns the action `reject` with the timeout feedback message `Timed out
(30m)` rather than continuing to wait. -/
theorem C7_wait_timeout (elapsedAt : Nat → Int) (userFile : Nat → Option (String × String))
    (fuel n : Nat)
    (huser : ∀ k, userFile k = none)
    (htime : ∃ j, n ≤ j ∧ j < n + fuel ∧ GATE_RESOLUTION_TIMEOUT < elapsedAt j) :
    wait_loop elapsedAt userFile fuel n = some ("reject", "Timed out (30m)") := by
  induction fuel generalizing n with
  | zero =>
      exfalso
      obtain ⟨j, h1, h2, _⟩ := htime
      omega
  | succ fuel ih =>
      obtain ⟨j, hnj, hlt, hj⟩ := htime
      by_cases hnow : GATE_RESOLUTION_TIMEOUT < elapsedAt n
      · simp [wait_loop, hnow]
      · have hne : n ≠ j := by
          intro h
          exact hnow (h ▸ hj)
        simp only [wait_loop, if_neg hnow, huser n]
        exact ih (n + 1) ⟨j, by omega, by omega, hj⟩

theorem C7_wait_timeout_witness :
    ((fun _ : Nat => (none : Option (String × String))) 0 = none) ∧
    wait_loop (fun _ => 1801) (fun _ => none) 1 0 = some ("reject", "Timed out (30m)") :=
  ⟨rfl,
   C7_wait_timeout (fun _ => 1801) (fun _ => none) 1 0 (fun _ => rfl)
     ⟨0, Nat.le_refl 0, by omega, by decide⟩⟩

theorem dedup_three (a b c : String) :
    (List.dedup [a, b, c]).length = 1 ↔ (a = b ∧ b = c) := by
  by_cases hbc : b = c
  · subst hbc
    have h1 : List.dedup [b, b] = [b] := by
      rw [List.dedup_cons_of_mem (by simp)]
      rw [List.dedup_cons_of_not_mem (by simp)]
      rfl
    by_cases hab : a = b
    · subst hab
      rw [List.dedup_cons_of_mem (by simp), h1]
      simp
    · rw [List.dedup_cons_of_not_mem (by simpa using hab), h1]
      simp [hab]
  · have h1 : List.dedup [b, c] = [b, c] := by
      rw [List.dedup_cons_of_not_mem (by simpa using hbc)]
      simp
    by_cases hab : a ∈ ([b, c] : List String)
    · rw [List.dedup_cons_of_mem hab, h1]
      simp [hbc]
    · rw [List.dedup_cons_of_not_mem hab, h1]
      simp [hbc]

/-- `_detect_stuck` returns true exactly when at least 3 plan versions exist
and the hashes of the 3 most recent are identical. -/
theorem detect_stuck_true_iff (ctx : RunContext) :
    detect_stuck ctx = true ↔
      (3 ≤ ctx.plan_versions.length ∧ ∃ h,
        (ctx.plan_versions.drop (ctx.plan_versions.length - 3)).map PlanVersion.hash
          = [h, h, h]) := by
  unfold detect_stuck
  by_cases hlen : ctx.plan_versions.length < 3
  · rw [if_pos hlen]
    simp only [Bool.false_eq_true, false_iff]
    intro hcon
    omega
  · rw [if_neg hlen]
    have hlen3 : (ctx.plan_versions.drop (ctx.plan_versions.length - 3)).length = 3 := by
      rw [List.length_drop]
      omega
    have hm3 : ((ctx.plan_versions.drop (ctx.plan_versions.length - 3)).map
        PlanVersion.hash).length = 3 := by
      rw [List.length_map, hlen3]
    obtain ⟨a, b, c, habc⟩ := List.length_eq_three.mp hm3
    rw [habc]
    constructor
    · intro h
      refine ⟨by omega, ?_⟩
      have h1 : (List.dedup [a, b, c]).length = 1 := by
        have := of_decide_eq_true h
        omega
      obtain ⟨hab, hbc⟩ := (dedup_three a b c).mp h1
      exact ⟨c, by rw [hab, hbc]⟩
    · rintro ⟨-, h, hh⟩
      have hab : a = b ∧ b = c := by
        have h1 := hh
        injection h1 with e1 h1
        injection h1 with e2 h1
        injection h1 with e3 _
        constructor <;> simp [e1, e2, e3]
      have : (List.dedup [a, b, c]).length = 1 := (dedup_three a b c).mpr hab
      simpa using this

theorem detect_stuck_congr (ctx ctx' : RunContext)
    (h : ctx.plan_versions = ctx'.plan_versions) : detect_stuck ctx = detect_stuck ctx' := by
  unfold detect_stuck
  rw [h]

theorem plan_gate_stuck_refine_stuck (collab : Collaborators) (s : PState)
    (h : detect_stuck s.ctx = true) :
    ∃ s', plan_gate_stuck_refine collab s = BodyResult.brk s' ∧
      s'.ctx.status = RunStatus.STUCK ∧
      s'.ctx.error_message = "Pipeline stuck: plan hash repeated 3 times" ∧
      s'.ctx.plan_versions = s.ctx.plan_versions ∧
      s'.ctx.plan_gates = s.ctx.plan_gates ∧
      s'.ctx.final_plan = s.ctx.final_plan ∧
      s'.ctx.current_iteration = s.ctx.current_iteration ∧
      s'.ctx.max_iterations = s.ctx.max_iterations := by
  unfold plan_gate_stuck_refine
  rw [if_pos h]
  exact ⟨_, rfl, rfl, rfl, rfl, rfl, rfl, rfl, rfl⟩

theorem plan_gate_stuck_refine_ok (collab : Collaborators) (s : PState) (r : String)
    (h : detect_stuck s.ctx = false)
    (hr : collab.refine_plan s.ctx.plan_versions.length = Except.ok r) :
    ∃ s', plan_gate_stuck_refine collab s = BodyResult.next s' ∧
      s'.ctx.status = RunStatus.REFINING ∧
      s'.ctx.current_iteration = s.ctx.current_iteration + 1 ∧
      s'.ctx.max_iterations = s.ctx.max_iterations ∧
      s'.ctx.confidence_threshold = s.ctx.confidence_threshold ∧
      s'.ctx.stable_passes = s.ctx.stable_passes ∧
      s'.ctx.approval_mode = s.ctx.approval_mode ∧
      s'.ctx.dry_run = s.ctx.dry_run ∧
      s'.ctx.stable_pass_count = s.ctx.stable_pass_count ∧
      s'.ctx.plan_gates = s.ctx.plan_gates ∧
      s'.ctx.final_plan = s.ctx.final_plan ∧
      s'.ctx.human_feedback = "" ∧
      s'.ctx.plan_versions = s.ctx.plan_versions ++
        [mkPlanVersion collab.hashFn (s.ctx.current_iteration + 1) r] := by
  simp only [plan_gate_stuck_refine, setStatus, logEvent, h, Bool.false_eq_true, if_false, hr]
  exact ⟨_, rfl, rfl, rfl, rfl, rfl, rfl, rfl, rfl, rfl, rfl, rfl, rfl, rfl⟩

theorem plan_gate_stuck_refine_err (collab : Collaborators) (s : PState) (msg : String)
    (h : detect_stuck s.ctx = false)
    (hr : collab.refine_plan s.ctx.plan_versions.length = Except.error msg) :
    ∃ s', plan_gate_stuck_refine collab s = BodyResult.raised s' msg := by
  simp only [plan_gate_stuck_refine, setStatus, logEvent, h, Bool.false_eq_true, if_false, hr]
  exact ⟨_, rfl⟩

/-- Inversion: a continuing iteration of the plan-gate body tail increments
the iteration counter by one, leaves the bounds and configuration unchanged,
appends exactly one plan version, and was not stuck. -/
theorem plan_gate_stuck_refine_next_inv (collab : Collaborators) (s s' : PState)
    (h : plan_gate_stuck_refine collab s = BodyResult.next s') :
    detect_stuck s.ctx = false ∧
    s'.ctx.current_iteration = s.ctx.current_iteration + 1 ∧
    s'.ctx.max_iterations = s.ctx.max_iterations ∧
    s'.ctx.confidence_threshold = s.ctx.confidence_threshold ∧
    s'.ctx.stable_passes = s.ctx.stable_passes ∧
    s'.ctx.approval_mode = s.ctx.approval_mode ∧
    s'.ctx.dry_run = s.ctx.dry_run ∧
    s'.ctx.stable_pass_count = s.ctx.stable_pass_count ∧
    s'.ctx.plan_gates = s.ctx.plan_gates ∧
    s'.ctx.final_plan = s.ctx.final_plan ∧
    s'.ctx.status = RunStatus.REFINING ∧
    s'.ctx.plan_versions.length = s.ctx.plan_versions.length + 1 := by
  by_cases hd : detect_stuck s.ctx
  · rw [show plan_gate_stuck_refine collab s = _ from by
      unfold plan_gate_stuck_refine; rw [if_pos hd]] at h
    exact absurd h (by simp)
  · rw [Bool.not_eq_true] at hd
    simp only [plan_gate_stuck_refine, setStatus, logEvent, hd, Bool.false_eq_true, if_false] at h
    refine ⟨hd, ?_⟩
    cases hr : collab.refine_plan s.ctx.plan_versions.length with
    | error msg =>
        rw [hr] at h
        exact absurd h (by simp)
    | ok r =>
        rw [hr] at h
        have hs' : s' = _ := (BodyResult.next.inj h).symm
        subst hs'
        refine ⟨rfl, rfl, rfl, rfl, rfl, rfl, rfl, rfl, rfl, rfl, ?_⟩
        simp

/-- Inversion: a `brk` out of the plan-gate body tail is the stuck exit. -/
theorem plan_gate_stuck_refine_brk_inv (collab : Collaborators) (s s' : PState)
    (h : plan_gate_stuck_refine collab s = BodyResult.brk s') :
    detect_stuck s.ctx = true ∧
    s'.ctx.status = RunStatus.STUCK ∧
    s'.ctx.plan_versions = s.ctx.plan_versions ∧
    s'.ctx.plan_gates = s.ctx.plan_gates ∧
    s'.ctx.final_plan = s.ctx.final_plan ∧
    s'.ctx.current_iteration = s.ctx.current_iteration ∧
    s'.ctx.max_iterations = s.ctx.max_iterations ∧
    s'.ctx.dry_run = s.ctx.dry_run := by
  by_cases hd : detect_stuck s.ctx
  · rw [show plan_gate_stuck_refine collab s = _ from by
      unfold plan_gate_stuck_refine; rw [if_pos hd]] at h
    have hs' : s' = _ := (BodyResult.brk.inj h).symm
    subst hs'
    exact ⟨hd, rfl, rfl, rfl, rfl, rfl, rfl, rfl⟩
  · rw [Bool.not_eq_true] at hd
    simp only [plan_gate_stuck_refine, setStatus, logEvent, hd, Bool.false_eq_true, if_false] at h
    cases hr : collab.refine_plan s.ctx.plan_versions.length with
    | error msg =>
        rw [hr] at h
        exact absurd h (by simp)
    | ok r =>
        rw [hr] at h
        exact absurd h (by simp)

theorem getLast?_mem_list (l : List PlanVersion) (p : PlanVersion)
    (h : l.getLast? = some p) : p ∈ l := by
  have hm : p ∈ l.getLast? := by rw [Option.mem_def, h]
  obtain ⟨hne, hp⟩ := List.mem_getLast?_eq_getLast hm
  rw [hp]
  exact List.getLast_mem hne

/-- Extended inversion for the continuing case of `plan_gate_stuck_refine`:
also exposes the refine output that was appended. -/
theorem plan_gate_stuck_refine_next_strong (collab : Collaborators) (s s' : PState)
    (h : plan_gate_stuck_refine collab s = BodyResult.next s') :
    ∃ r, collab.refine_plan s.ctx.plan_versions.length = Except.ok r ∧
      s'.ctx.plan_versions = s.ctx.plan_versions ++
        [mkPlanVersion collab.hashFn (s.ctx.current_iteration + 1) r] := by
  by_cases hd : detect_stuck s.ctx
  · rw [show plan_gate_stuck_refine collab s = _ from by
      unfold plan_gate_stuck_refine; rw [if_pos hd]] at h
    exact absurd h (by simp)
  · rw [Bool.not_eq_true] at hd
    simp only [plan_gate_stuck_refine, setStatus, logEvent, hd, Bool.false_eq_true, if_false] at h
    cases hr : collab.refine_plan s.ctx.plan_versions.length with
    | error msg =>
        rw [hr] at h
        exact absurd h (by simp)
    | ok r =>
        rw [hr] at h
        have hs' : s' = _ := (BodyResult.next.inj h).symm
        subst hs'
        exact ⟨r, rfl, rfl⟩

/-- Case analysis of `plan_gate_after_gate`: it either defers to
`plan_gate_stuck_refine` at a state differing only in stable-pass counter and
trace, freezes the last plan version as `final_plan` and breaks, or raises. -/
theorem plan_gate_after_gate_spec (collab : Collaborators) (s : PState) (gr : GateResult) :
    (∃ s₁, plan_gate_after_gate collab s gr = plan_gate_stuck_refine collab s₁ ∧
       s₁.ctx.current_iteration = s.ctx.current_iteration ∧
       s₁.ctx.max_iterations = s.ctx.max_iterations ∧
       s₁.ctx.final_plan = s.ctx.final_plan ∧
       s₁.ctx.plan_versions = s.ctx.plan_versions ∧
       s₁.ctx.dry_run = s.ctx.dry_run) ∨
    (∃ p s', s.ctx.plan_versions.getLast? = some p ∧
       plan_gate_after_gate collab s gr = BodyResult.brk s' ∧
       s'.ctx.final_plan = p.content ∧
       s'.ctx.status = s.ctx.status ∧
       s'.ctx.current_iteration = s.ctx.current_iteration ∧
       s'.ctx.max_iterations = s.ctx.max_iterations ∧
       s'.ctx.dry_run = s.ctx.dry_run ∧
       s'.ctx.plan_versions = s.ctx.plan_versions) ∨
    (∃ s' m, plan_gate_after_gate collab s gr = BodyResult.raised s' m) := by
  by_cases hg : gr = GateResult.PASS
  · subst hg
    simp only [plan_gate_after_gate, logEvent, reduceIte]
    by_cases hsp : s.ctx.stable_passes ≤ s.ctx.stable_pass_count + 1
    · rw [if_pos hsp]
      cases hl : s.ctx.plan_versions.getLast? with
      | none =>
          right; right
          exact ⟨_, _, rfl⟩
      | some p =>
          right; left
          exact ⟨p, _, rfl, rfl, rfl, rfl, rfl, rfl, rfl, rfl⟩
    · rw [if_neg hsp]
      left
      exact ⟨_, rfl, rfl, rfl, rfl, rfl, rfl⟩
  · simp only [plan_gate_after_gate, logEvent, if_neg hg]
    left
    exact ⟨_, rfl, rfl, rfl, rfl, rfl, rfl⟩

/-- Full case analysis of `plan_gate_after_gate` composed through
`plan_gate_stuck_refine`. -/
theorem plan_gate_after_gate_full_spec (collab : Collaborators) (s : PState) (gr : GateResult) :
    (∃ s' r, plan_gate_after_gate collab s gr = BodyResult.next s' ∧
       (∃ k, collab.refine_plan k = Except.ok r) ∧
       s'.ctx.current_iteration = s.ctx.current_iteration + 1 ∧
       s'.ctx.max_iterations = s.ctx.max_iterations ∧
       s'.ctx.final_plan = s.ctx.final_plan ∧
       s'.ctx.dry_run = s.ctx.dry_run ∧
       s'.ctx.plan_versions = s.ctx.plan_versions ++
         [mkPlanVersion collab.hashFn (s.ctx.current_iteration + 1) r]) ∨
    (∃ s', plan_gate_after_gate collab s gr = BodyResult.brk s' ∧
       s'.ctx.current_iteration = s.ctx.current_iteration ∧
       s'.ctx.max_iterations = s.ctx.max_iterations ∧
       s'.ctx.dry_run = s.ctx.dry_run ∧
       (((s'.ctx.status = RunStatus.FAILED ∨ s'.ctx.status = RunStatus.STUCK) ∧
           s'.ctx.final_plan = s.ctx.final_plan) ∨
         (∃ p, p ∈ s.ctx.plan_versions ∧ s'.ctx.final_plan = p.content))) ∨
    (∃ s' m, plan_gate_after_gate collab s gr = BodyResult.raised s' m) := by
  rcases plan_gate_after_gate_spec collab s gr with
    ⟨s₁, heq, hit, hmx, hfp, hpv, hdr⟩ | ⟨p, s', hl, heq, h1, h2, h3, h4, h5, h6⟩ |
    ⟨s', m, heq⟩
  · cases hsr : plan_gate_stuck_refine collab s₁ with
    | next s₂ =>
        obtain ⟨-, hi2, hm2, _, _, _, hd2, _, _, hf2, _, _⟩ :=
          plan_gate_stuck_refine_next_inv collab s₁ s₂ hsr
        obtain ⟨r, hr, hv2⟩ := plan_gate_stuck_refine_next_strong collab s₁ s₂ hsr
        left
        refine ⟨s₂, r, by rw [heq, hsr], ⟨_, hr⟩, by rw [hi2, hit], ?_, ?_, ?_, ?_⟩
        · rw [hm2, hmx]
        · rw [hf2, hfp]
        · rw [hd2, hdr]
        · rw [hv2, hpv, hit]
    | brk s₂ =>
        obtain ⟨-, hst2, -, -, hf2, hi2, hm2, hd2⟩ :=
          plan_gate_stuck_refine_brk_inv collab s₁ s₂ hsr
        right; left
        exact ⟨s₂, by rw [heq, hsr], by rw [hi2, hit], by rw [hm2, hmx],
          by rw [hd2, hdr], Or.inl ⟨Or.inr hst2, by rw [hf2, hfp]⟩⟩
    | raised s₂ m =>
        right; right
        exact ⟨s₂, m, by rw [heq, hsr]⟩
  · right; left
    exact ⟨s', heq, h3, h4, h5, Or.inr ⟨p, getLast?_mem_list _ _ hl, h1⟩⟩
  · right; right
    exact ⟨s', m, heq⟩

theorem reject_break_spec (s : PState) :
    ∃ s', reject_break s = BodyResult.brk s' ∧
      s'.ctx.status = RunStatus.FAILED ∧
      s'.ctx.current_iteration = s.ctx.current_iteration ∧
      s'.ctx.max_iterations = s.ctx.max_iterations ∧
      s'.ctx.dry_run = s.ctx.dry_run ∧
      s'.ctx.final_plan = s.ctx.final_plan ∧
      s'.ctx.plan_versions = s.ctx.plan_versions := by
  unfold reject_break
  exact ⟨_, rfl, rfl, rfl, rfl, rfl, rfl, rfl⟩

theorem gate_resolution_step_fields (collab : Collaborators) (s : PState) :
    (gate_resolution_step collab s).1.ctx.current_iteration = s.ctx.current_iteration ∧
    (gate_resolution_step collab s).1.ctx.max_iterations = s.ctx.max_iterations ∧
    (gate_resolution_step collab s).1.ctx.dry_run = s.ctx.dry_run ∧
    (gate_resolution_step collab s).1.ctx.final_plan = s.ctx.final_plan ∧
    (gate_resolution_step collab s).1.ctx.plan_versions = s.ctx.plan_versions ∧
    (gate_resolution_step collab s).1.ctx.plan_gates = s.ctx.plan_gates ∧
    (gate_resolution_step collab s).1.ctx.status = s.ctx.status ∧
    (gate_resolution_step collab s).1.ctx.stable_pass_count = s.ctx.stable_pass_count ∧
    (gate_resolution_step collab s).1.ctx.stable_passes = s.ctx.stable_passes ∧
    (gate_resolution_step collab s).1.ctx.confidence_threshold = s.ctx.confidence_threshold ∧
    (gate_resolution_step collab s).1.ctx.approval_mode = s.ctx.approval_mode ∧
    (gate_resolution_step collab s).2 = (collab.resolution s.nres).1 :=
  ⟨rfl, rfl, rfl, rfl, rfl, rfl, rfl, rfl, rfl, rfl, rfl, rfl⟩

/-- Case analysis of the blocking branch of the plan gate. -/
theorem plan_gate_blocked_spec (collab : Collaborators) (s : PState) (gr : GateResult) :
    (∃ s' r, plan_gate_blocked collab s gr = BodyResult.next s' ∧
       (∃ k, collab.refine_plan k = Except.ok r) ∧
       s'.ctx.current_iteration = s.ctx.current_iteration + 1 ∧
       s'.ctx.max_iterations = s.ctx.max_iterations ∧
       s'.ctx.final_plan = s.ctx.final_plan ∧
       s'.ctx.dry_run = s.ctx.dry_run ∧
       s'.ctx.plan_versions = s.ctx.plan_versions ++
         [mkPlanVersion collab.hashFn (s.ctx.current_iteration + 1) r]) ∨
    (∃ s', plan_gate_blocked collab s gr = BodyResult.brk s' ∧
       s'.ctx.current_iteration = s.ctx.current_iteration ∧
       s'.ctx.max_iterations = s.ctx.max_iterations ∧
       s'.ctx.dry_run = s.ctx.dry_run ∧
       (((s'.ctx.status = RunStatus.FAILED ∨ s'.ctx.status = RunStatus.STUCK) ∧
           s'.ctx.final_plan = s.ctx.final_plan) ∨
         (∃ p, p ∈ s.ctx.plan_versions ∧ s'.ctx.final_plan = p.content))) ∨
    (∃ s' m, plan_gate_blocked collab s gr = BodyResult.raised s' m) := by
  simp only [plan_gate_blocked]
  obtain ⟨gi, gm, gd, gf, gv, -, -, -, -, -, -, -⟩ := gate_resolution_step_fields collab s
  by_cases hrej : (gate_resolution_step collab s).2 = "reject"
  · rw [if_pos hrej]
    obtain ⟨s', heq, hst, hi, hm, hd, hf, -⟩ :=
      reject_break_spec (gate_resolution_step collab s).1
    right; left
    exact ⟨s', heq, hi.trans gi, hm.trans gm, hd.trans gd,
      Or.inl ⟨Or.inl hst, hf.trans gf⟩⟩
  · rw [if_neg hrej]
    rcases plan_gate_after_gate_full_spec collab (gate_resolution_step collab s).1
        (if (gate_resolution_step collab s).2 = "approve" then GateResult.PASS
         else if (gate_resolution_step collab s).2 = "request_changes" then GateResult.FAIL
         else gr) with
      ⟨s', r, heq, hkr, hi, hm, hf, hd, hv⟩ | ⟨s', heq, hi, hm, hd, hrest⟩ | ⟨s', m, heq⟩
    · left
      rw [gv, gi] at hv
      exact ⟨s', r, heq, hkr, by rw [hi, gi], hm.trans gm, hf.trans gf, hd.trans gd, hv⟩
    · right; left
      refine ⟨s', heq, hi.trans gi, hm.trans gm, hd.trans gd, ?_⟩
      rcases hrest with ⟨hst, hf⟩ | ⟨p, hp, hf⟩
      · exact Or.inl ⟨hst, hf.trans gf⟩
      · rw [gv] at hp
        exact Or.inr ⟨p, hp, hf⟩
    · right; right
      exact ⟨s', m, heq⟩

/-- Case analysis of the plan-gate body after the critique call succeeded. -/
theorem plan_gate_with_critique_spec (collab : Collaborators) (s : PState) (c : CritiqueResult) :
    (∃ s' r, plan_gate_with_critique collab s c = BodyResult.next s' ∧
       (∃ k, collab.refine_plan k = Except.ok r) ∧
       s'.ctx.current_iteration = s.ctx.current_iteration + 1 ∧
       s'.ctx.max_iterations = s.ctx.max_iterations ∧
       s'.ctx.final_plan = s.ctx.final_plan ∧
       s'.ctx.dry_run = s.ctx.dry_run ∧
       s'.ctx.plan_versions = s.ctx.plan_versions ++
         [mkPlanVersion collab.hashFn (s.ctx.current_iteration + 1) r]) ∨
    (∃ s', plan_gate_with_critique collab s c = BodyResult.brk s' ∧
       s'.ctx.current_iteration = s.ctx.current_iteration ∧
       s'.ctx.max_iterations = s.ctx.max_iterations ∧
       s'.ctx.dry_run = s.ctx.dry_run ∧
       (((s'.ctx.status = RunStatus.FAILED ∨ s'.ctx.status = RunStatus.STUCK) ∧
           s'.ctx.final_plan = s.ctx.final_plan) ∨
         (∃ p, p ∈ s.ctx.plan_versions ∧ s'.ctx.final_plan = p.content))) ∨
    (∃ s' m, plan_gate_with_critique collab s c = BodyResult.raised s' m) := by
  have hrfl : plan_gate_with_critique collab s c =
      (if should_block_at_gate
            (logEvent { s with ctx := { s.ctx with plan_gates := s.ctx.plan_gates ++ [c] } }
              "plan_gate_result").ctx
            (check_gate c s.ctx.confidence_threshold) = true then
        plan_gate_blocked collab
          (logEvent { s with ctx := { s.ctx with plan_gates := s.ctx.plan_gates ++ [c] } }
            "plan_gate_result")
          (check_gate c s.ctx.confidence_threshold)
      else
        plan_gate_after_gate collab
          (logEvent { s with ctx := { s.ctx with plan_gates := s.ctx.plan_gates ++ [c] } }
            "plan_gate_result")
          (check_gate c s.ctx.confidence_threshold)) := rfl
  rw [hrfl]
  by_cases hb : should_block_at_gate
      (logEvent { s with ctx := { s.ctx with plan_gates := s.ctx.plan_gates ++ [c] } }
        "plan_gate_result").ctx
      (check_gate c s.ctx.confidence_threshold) = true
  · rw [if_pos hb]
    exact plan_gate_blocked_spec collab _ _
  · rw [if_neg hb]
    exact plan_gate_after_gate_full_spec collab _ _

/-- Full case analysis of one PLAN_GATE loop-body iteration: it continues
with the iteration counter incremented by one and exactly one plan version
(a refine output) appended, or breaks with status FAILED (human rejection),
status STUCK, or an approved `final_plan` equal to the content of an existing
plan version, or raises. -/
theorem plan_gate_body_spec (collab : Collaborators) (s : PState) :
    (∃ s' r, plan_gate_body collab s = BodyResult.next s' ∧
       (∃ k, collab.refine_plan k = Except.ok r) ∧
       s'.ctx.current_iteration = s.ctx.current_iteration + 1 ∧
       s'.ctx.max_iterations = s.ctx.max_iterations ∧
       s'.ctx.final_plan = s.ctx.final_plan ∧
       s'.ctx.dry_run = s.ctx.dry_run ∧
       s'.ctx.plan_versions = s.ctx.plan_versions ++
         [mkPlanVersion collab.hashFn (s.ctx.current_iteration + 1) r]) ∨
    (∃ s', plan_gate_body collab s = BodyResult.brk s' ∧
       s'.ctx.current_iteration = s.ctx.current_iteration ∧
       s'.ctx.max_iterations = s.ctx.max_iterations ∧
       s'.ctx.dry_run = s.ctx.dry_run ∧
       (((s'.ctx.status = RunStatus.FAILED ∨ s'.ctx.status = RunStatus.STUCK) ∧
           s'.ctx.final_plan = s.ctx.final_plan) ∨
         (∃ p, p ∈ s.ctx.plan_versions ∧ s'.ctx.final_plan = p.content))) ∨
    (∃ s' m, plan_gate_body collab s = BodyResult.raised s' m) := by
  cases hc : collab.plan_critique s.ctx.plan_gates.length with
  | error msg =>
      right; right
      refine ⟨logEvent (setStatus s RunStatus.PLAN_GATE) "plan_gate_started", msg, ?_⟩
      unfold plan_gate_body
      rw [hc]
  | ok c =>
      have heq : plan_gate_body collab s =
          plan_gate_with_critique collab
            (logEvent (setStatus s RunStatus.PLAN_GATE) "plan_gate_started") c := by
        unfold plan_gate_body
        rw [hc]
      rw [heq]
      exact plan_gate_with_critique_spec collab _ c

/-- Each continuing PLAN_GATE iteration increments `current_iteration` by
exactly one and leaves the bound unchanged (the loop-progress fact behind the
fuel computation of `plan_gate_loop`). -/
theorem plan_gate_body_next_iter (collab : Collaborators) (s s' : PState)
    (h : plan_gate_body collab s = BodyResult.next s') :
    s'.ctx.current_iteration = s.ctx.current_iteration + 1 ∧
    s'.ctx.max_iterations = s.ctx.max_iterations := by
  rcases plan_gate_body_spec collab s with
    ⟨t, r, heq, -, hi, hm, -, -, -⟩ | ⟨t, heq, -⟩ | ⟨t, m, heq⟩
  · have hts : t = s' := BodyResult.next.inj (heq.symm.trans h)
    subst hts
    exact ⟨hi, hm⟩
  · exact absurd (heq.symm.trans h) (by simp)
  · exact absurd (heq.symm.trans h) (by simp)

/-- The fueled PLAN_GATE loop satisfies exactly the `while` recurrence of
orchestrator.py line 304. -/
theorem plan_gate_loop_eq (collab : Collaborators) (s : PState) :
    plan_gate_loop collab s =
      if s.ctx.current_iteration ≤ s.ctx.max_iterations then
        match plan_gate_body collab s with
        | BodyResult.next s' => plan_gate_loop collab s'
        | BodyResult.brk s' => Outcome.ok s'
        | BodyResult.raised s' msg => Outcome.err s' msg
      else Outcome.ok s := by
  unfold plan_gate_loop
  by_cases hle : s.ctx.current_iteration ≤ s.ctx.max_iterations
  · rw [if_pos hle]
    have hfuel : (s.ctx.max_iterations + 1 - s.ctx.current_iteration).toNat =
        (s.ctx.max_iterations - s.ctx.current_iteration).toNat + 1 := by omega
    rw [hfuel]
    cases hb : plan_gate_body collab s with
    | next s' =>
        obtain ⟨hi, hm⟩ := plan_gate_body_next_iter collab s s' hb
        have hfuel2 : (s.ctx.max_iterations - s.ctx.current_iteration).toNat =
            (s'.ctx.max_iterations + 1 - s'.ctx.current_iteration).toNat := by
          rw [hi, hm]
          omega
        simp only [plan_gate_loop_fuel, hb, hfuel2]
    | brk s' => simp only [plan_gate_loop_fuel, hb]
    | raised s' msg => simp only [plan_gate_loop_fuel, hb]
  · rw [if_neg hle]
    have hfuel : (s.ctx.max_iterations + 1 - s.ctx.current_iteration).toNat = 0 := by omega
    rw [hfuel]
    rfl

theorem code_gate_after_spec (collab : Collaborators) (s : PState) (gr : GateResult)
    (fi : Int) :
    (∃ s', code_gate_after collab s gr fi = CodeBodyResult.brk s' ∧
       s'.ctx.status = RunStatus.SUCCESS) ∨
    (∃ s', code_gate_after collab s gr fi = CodeBodyResult.next s' (fi + 1) ∧
       (MAX_FIX_ITERATIONS ≤ fi + 1 → s'.ctx.status = RunStatus.FAILED)) ∨
    (∃ s' m, code_gate_after collab s gr fi = CodeBodyResult.raised s' m) := by
  by_cases hg : gr = GateResult.PASS
  · unfold code_gate_after
    rw [if_pos hg]
    left
    exact ⟨_, rfl, rfl⟩
  · by_cases hlt : fi + 1 < MAX_FIX_ITERATIONS
    · cases hfx : collab.fix_code (fi + 1).toNat with
      | error m =>
          simp only [code_gate_after, logEvent, setStatus, hg, hlt, hfx, if_true, if_false,
            ite_true, ite_false]
          right; right
          exact ⟨_, m, rfl⟩
      | ok l =>
          simp only [code_gate_after, logEvent, setStatus, hg, hlt, hfx, if_true, if_false,
            ite_true, ite_false]
          right; left
          exact ⟨_, rfl, fun hcon => absurd hlt (by omega)⟩
    · simp only [code_gate_after, logEvent, setStatus, hg, hlt, if_true, if_false,
        ite_true, ite_false]
      right; left
      exact ⟨_, rfl, fun _ => rfl⟩

/-- Case analysis of the blocking branch of the code gate. -/
theorem code_gate_blocked_spec (collab : Collaborators) (s : PState) (gr : GateResult)
    (fi : Int) :
    (∃ s', code_gate_blocked collab s gr fi = CodeBodyResult.brk s' ∧
       (s'.ctx.status = RunStatus.SUCCESS ∨ s'.ctx.status = RunStatus.FAILED)) ∨
    (∃ s', code_gate_blocked collab s gr fi = CodeBodyResult.next s' (fi + 1) ∧
       (MAX_FIX_ITERATIONS ≤ fi + 1 → s'.ctx.status = RunStatus.FAILED)) ∨
    (∃ s' m, code_gate_blocked collab s gr fi = CodeBodyResult.raised s' m) := by
  simp only [code_gate_blocked]
  by_cases hrej : (gate_resolution_step collab s).2 = "reject"
  · rw [if_pos hrej]
    obtain ⟨s', heq, hst, -, -, -, -, -⟩ :=
      reject_break_spec (gate_resolution_step collab s).1
    rw [heq]
    left
    exact ⟨s', rfl, Or.inr hst⟩
  · rw [if_neg hrej]
    rcases code_gate_after_spec collab (gate_resolution_step collab s).1
        (if (gate_resolution_step collab s).2 = "approve" then GateResult.PASS
         else if (gate_resolution_step collab s).2 = "request_changes" then GateResult.FAIL
         else gr) fi with
      ⟨s', heq, hst⟩ | ⟨s', heq, hst⟩ | ⟨s', m, heq⟩
    · left
      exact ⟨s', heq, Or.inl hst⟩
    · right; left
      exact ⟨s', heq, hst⟩
    · right; right
      exact ⟨s', m, heq⟩

/-- Case analysis of the code-gate body after the critique call succeeded. -/
theorem code_gate_with_critique_spec (collab : Collaborators) (s : PState)
    (c : CritiqueResult) (fi : Int) :
    (∃ s', code_gate_with_critique collab s c fi = CodeBodyResult.brk s' ∧
       (s'.ctx.status = RunStatus.SUCCESS ∨ s'.ctx.status = RunStatus.FAILED)) ∨
    (∃ s', code_gate_with_critique collab s c fi = CodeBodyResult.next s' (fi + 1) ∧
       (MAX_FIX_ITERATIONS ≤ fi + 1 → s'.ctx.status = RunStatus.FAILED)) ∨
    (∃ s' m, code_gate_with_critique collab s c fi = CodeBodyResult.raised s' m) := by
  have hrfl : code_gate_with_critique collab s c fi =
      (if should_block_at_gate
            (logEvent { s with ctx := { s.ctx with code_gates := s.ctx.code_gates ++ [c] } }
              "code_gate_result").ctx
            (check_gate c s.ctx.confidence_threshold) = true then
        code_gate_blocked collab
          (logEvent { s with ctx := { s.ctx with code_gates := s.ctx.code_gates ++ [c] } }
            "code_gate_result")
          (check_gate c s.ctx.confidence_threshold) fi
      else
        code_gate_after collab
          (logEvent { s with ctx := { s.ctx with code_gates := s.ctx.code_gates ++ [c] } }
            "code_gate_result")
          (check_gate c s.ctx.confidence_threshold) fi) := rfl
  rw [hrfl]
  by_cases hb : should_block_at_gate
      (logEvent { s with ctx := { s.ctx with code_gates := s.ctx.code_gates ++ [c] } }
        "code_gate_result").ctx
      (check_gate c s.ctx.confidence_threshold) = true
  · rw [if_pos hb]
    exact code_gate_blocked_spec collab _ _ fi
  · rw [if_neg hb]
    rcases code_gate_after_spec collab
        (logEvent { s with ctx := { s.ctx with code_gates := s.ctx.code_gates ++ [c] } }
          "code_gate_result")
        (check_gate c s.ctx.confidence_threshold) fi with
      ⟨s', heq, hst⟩ | ⟨s', heq, hst⟩ | ⟨s', m, heq⟩
    · left
      exact ⟨s', heq, Or.inl hst⟩
    · right; left
      exact ⟨s', heq, hst⟩
    · right; right
      exact ⟨s', m, heq⟩

/-- Full case analysis of one CODE_GATE loop-body iteration. -/
theorem code_gate_body_spec (collab : Collaborators) (s : PState) (fi : Int) :
    (∃ s', code_gate_body collab s fi = CodeBodyResult.brk s' ∧
       (s'.ctx.status = RunStatus.SUCCESS ∨ s'.ctx.status = RunStatus.FAILED)) ∨
    (∃ s', code_gate_body collab s fi = CodeBodyResult.next s' (fi + 1) ∧
       (MAX_FIX_ITERATIONS ≤ fi + 1 → s'.ctx.status = RunStatus.FAILED)) ∨
    (∃ s' m, code_gate_body collab s fi = CodeBodyResult.raised s' m) := by
  cases hd : collab.get_diff with
  | error msg =>
      right; right
      refine ⟨logEvent (setStatus s RunStatus.CODE_GATE) "code_gate_started", msg, ?_⟩
      unfold code_gate_body
      rw [hd]
  | ok d =>
      cases hc : collab.code_critique s.ctx.code_gates.length with
      | error msg =>
          right; right
          refine ⟨logEvent (setStatus s RunStatus.CODE_GATE) "code_gate_started", msg, ?_⟩
          unfold code_gate_body
          rw [hd, hc]
      | ok c =>
          have heq : code_gate_body collab s fi =
              code_gate_with_critique collab
                (logEvent (setStatus s RunStatus.CODE_GATE) "code_gate_started") c fi := by
            unfold code_gate_body
            rw [hd, hc]
          rw [heq]
          exact code_gate_with_critique_spec collab _ c fi

/-- Each continuing CODE_GATE iteration increments the local `fix_iteration`
by exactly one. -/
theorem code_gate_body_next_fi (collab : Collaborators) (s s' : PState) (fi fi' : Int)
    (h : code_gate_body collab s fi = CodeBodyResult.next s' fi') :
    fi' = fi + 1 ∧ (MAX_FIX_ITERATIONS ≤ fi + 1 → s'.ctx.status = RunStatus.FAILED) := by
  rcases code_gate_body_spec collab s fi with
    ⟨t, heq, -⟩ | ⟨t, heq, hst⟩ | ⟨t, m, heq⟩
  · exact absurd (heq.symm.trans h) (by simp)
  · have := heq.symm.trans h
    have hts : t = s' ∧ fi + 1 = fi' := by
      constructor
      · exact (CodeBodyResult.next.inj this).1
      · exact (CodeBodyResult.next.inj this).2
    obtain ⟨hts1, hts2⟩ := hts
    subst hts1
    exact ⟨hts2.symm, hst⟩
  · exact absurd (heq.symm.trans h) (by simp)

/-- The fueled CODE_GATE loop satisfies exactly the `while` recurrence of
orchestrator.py line 429. -/
theorem code_gate_loop_eq (collab : Collaborators) (s : PState) (fi : Int) :
    code_gate_loop collab s fi =
      if fi < MAX_FIX_ITERATIONS then
        match code_gate_body collab s fi with
        | CodeBodyResult.next s' fi' => code_gate_loop collab s' fi'
        | CodeBodyResult.brk s' => Outcome.ok s'
        | CodeBodyResult.raised s' msg => Outcome.err s' msg
      else Outcome.ok s := by
  unfold code_gate_loop
  by_cases hle : fi < MAX_FIX_ITERATIONS
  · rw [if_pos hle]
    have hfuel : (MAX_FIX_ITERATIONS - fi).toNat = (MAX_FIX_ITERATIONS - (fi + 1)).toNat + 1 := by
      simp only [MAX_FIX_ITERATIONS] at hle ⊢
      omega
    rw [hfuel]
    cases hb : code_gate_body collab s fi with
    | next s' fi' =>
        obtain ⟨hfi, -⟩ := code_gate_body_next_fi collab s s' fi fi' hb
        have hfuel2 : (MAX_FIX_ITERATIONS - (fi + 1)).toNat = (MAX_FIX_ITERATIONS - fi').toNat := by
          rw [hfi]
        simp only [code_gate_loop_fuel, hb, hfuel2]
    | brk s' => simp only [code_gate_loop_fuel, hb]
    | raised s' msg => simp only [code_gate_loop_fuel, hb]
  · rw [if_neg hle]
    have hfuel : (MAX_FIX_ITERATIONS - fi).toNat = 0 := by
      simp only [MAX_FIX_ITERATIONS] at hle ⊢
      omega
    rw [hfuel]
    rfl

/-- Terminal classification of the PLAN_GATE loop under non-empty plan
texts: the loop ends with an approved non-empty `final_plan`, with a terminal
FAILED/STUCK break inside the iteration bound, or by exhausting the bound
with no final plan. -/
theorem plan_gate_loop_fuel_cases (collab : Collaborators)
    (hne : ∀ k r, collab.refine_plan k = Except.ok r → r ≠ "") :
    ∀ (fuel : Nat) (s s' : PState),
      fuel = (s.ctx.max_iterations + 1 - s.ctx.current_iteration).toNat →
      (∀ v ∈ s.ctx.plan_versions, v.content ≠ "") →
      s.ctx.final_plan = "" →
      plan_gate_loop_fuel collab fuel s = Outcome.ok s' →
      (s'.ctx.final_plan ≠ "") ∨
      ((s'.ctx.status = RunStatus.FAILED ∨ s'.ctx.status = RunStatus.STUCK) ∧
        s'.ctx.final_plan = "" ∧
        s'.ctx.current_iteration ≤ s'.ctx.max_iterations) ∨
      (s'.ctx.final_plan = "" ∧ s'.ctx.max_iterations < s'.ctx.current_iteration) := by
  intro fuel
  induction fuel with
  | zero =>
      intro s s' hfuel hv hf h
      have hs : s = s' := Outcome.ok.inj h
      subst hs
      right; right
      exact ⟨hf, by omega⟩
  | succ k ih =>
      intro s s' hfuel hv hf h
      rcases plan_gate_body_spec collab s with
        ⟨t, r, heq, hkr, hi, hm, hfp, -, hpv⟩ | ⟨t, heq, hi, hm, -, hrest⟩ | ⟨t, m, heq⟩
      · simp only [plan_gate_loop_fuel, heq] at h
        refine ih t s' ?_ ?_ ?_ h
        · rw [hi, hm]
          omega
        · intro v hvin
          rw [hpv] at hvin
          rcases List.mem_append.mp hvin with hold | hnew
          · exact hv v hold
          · obtain ⟨kk, hkk⟩ := hkr
            have hr : r ≠ "" := hne kk r hkk
            have : v = mkPlanVersion collab.hashFn (s.ctx.current_iteration + 1) r := by
              simpa using hnew
            rw [this]
            exact hr
        · rw [hfp, hf]
      · simp only [plan_gate_loop_fuel, heq] at h
        have hts : t = s' := Outcome.ok.inj h
        subst hts
        rcases hrest with ⟨hst, hfp⟩ | ⟨p, hpmem, hfp⟩
        · right; left
          refine ⟨hst, by rw [hfp, hf], ?_⟩
          rw [hi, hm]
          omega
        · left
          rw [hfp]
          exact hv p hpmem
      · simp only [plan_gate_loop_fuel, heq] at h
        exact absurd h (by simp)

/-- Terminal classification of the CODE_GATE loop: a normal exit carries
status SUCCESS or FAILED. -/
theorem code_gate_loop_fuel_cases (collab : Collaborators) :
    ∀ (fuel : Nat) (s s' : PState) (fi : Int),
      fuel = (MAX_FIX_ITERATIONS - fi).toNat →
      (fi < MAX_FIX_ITERATIONS ∨ s.ctx.status = RunStatus.FAILED) →
      code_gate_loop_fuel collab fuel s fi = Outcome.ok s' →
      s'.ctx.status = RunStatus.SUCCESS ∨ s'.ctx.status = RunStatus.FAILED := by
  intro fuel
  induction fuel with
  | zero =>
      intro s s' fi hfuel hinv h
      have hs : s = s' := Outcome.ok.inj h
      subst hs
      rcases hinv with hlt | hst
      · exfalso
        simp only [MAX_FIX_ITERATIONS] at hfuel hlt
        omega
      · exact Or.inr hst
  | succ k ih =>
      intro s s' fi hfuel hinv h
      rcases code_gate_body_spec collab s fi with
        ⟨t, heq, hst⟩ | ⟨t, heq, hst⟩ | ⟨t, m, heq⟩
      · simp only [code_gate_loop_fuel, heq] at h
        have hts : t = s' := Outcome.ok.inj h
        subst hts
        exact hst
      · simp only [code_gate_loop_fuel, heq] at h
        refine ih t s' (fi + 1) ?_ ?_ h
        · simp only [MAX_FIX_ITERATIONS] at hfuel ⊢
          omega
        · by_cases hlt : fi + 1 < MAX_FIX_ITERATIONS
          · exact Or.inl hlt
          · exact Or.inr (hst (by omega))
      · simp only [code_gate_loop_fuel, heq] at h
        exact absurd h (by simp)

theorem planning_phase_ok (collab : Collaborators) (s : PState) (p : String)
    (h : collab.generate_plan = Except.ok p) :
    ∃ s₁, planning_phase collab s = Outcome.ok s₁ ∧
      s₁.ctx.current_iteration = 1 ∧
      s₁.ctx.max_iterations = s.ctx.max_iterations ∧
      s₁.ctx.final_plan = s.ctx.final_plan ∧
      s₁.ctx.dry_run = s.ctx.dry_run ∧
      s₁.ctx.status = RunStatus.PLANNING ∧
      s₁.ctx.plan_versions = s.ctx.plan_versions ++ [mkPlanVersion collab.hashFn 1 p] ∧
      s₁.ctx.plan_gates = s.ctx.plan_gates ∧
      s₁.ctx.stable_pass_count = s.ctx.stable_pass_count ∧
      s₁.ctx.confidence_threshold = s.ctx.confidence_threshold ∧
      s₁.ctx.stable_passes = s.ctx.stable_passes ∧
      s₁.ctx.approval_mode = s.ctx.approval_mode ∧
      s₁.nres = s.nres := by
  simp only [planning_phase, logEvent, setStatus, h]
  exact ⟨_, rfl, rfl, rfl, rfl, rfl, rfl, rfl, rfl, rfl, rfl, rfl, rfl, rfl⟩

theorem planning_phase_err (collab : Collaborators) (s : PState) (msg : String)
    (h : collab.generate_plan = Except.error msg) :
    ∃ s₁, planning_phase collab s = Outcome.err s₁ msg := by
  simp only [planning_phase, logEvent, setStatus, h]
  exact ⟨_, rfl⟩

/-- Case analysis of the implementation phase / dry-run short-circuit. -/
theorem implementation_phase_spec (collab : Collaborators) (s : PState) :
    (s.ctx.final_plan = "" → implementation_phase collab s = Outcome.ok s) ∧
    (s.ctx.final_plan ≠ "" → s.ctx.dry_run = true →
      ∃ s', implementation_phase collab s = Outcome.ok s' ∧
        s'.ctx.status = RunStatus.SUCCESS) ∧
    (s.ctx.final_plan ≠ "" → s.ctx.dry_run = false →
      (∃ s', implementation_phase collab s = Outcome.ok s' ∧
         (s'.ctx.status = RunStatus.SUCCESS ∨ s'.ctx.status = RunStatus.FAILED)) ∨
      (∃ s' m, implementation_phase collab s = Outcome.err s' m)) := by
  refine ⟨?_, ?_, ?_⟩
  · intro hf
    unfold implementation_phase
    rw [if_neg (by simp [hf]), if_neg (by simp [hf])]
  · intro hf hd
    unfold implementation_phase
    rw [if_neg (by simp [hd]), if_pos ⟨hf, hd⟩]
    exact ⟨_, rfl, rfl⟩
  · intro hf hd
    unfold implementation_phase
    rw [if_pos ⟨hf, hd⟩]
    cases himp : collab.implement with
    | error m =>
        right
        exact ⟨_, m, rfl⟩
    | ok l =>
        cases hl : code_gate_loop collab
            (logEvent (logEvent (logEvent (setStatus s RunStatus.IMPLEMENTING)
              "implementation_started") "claude_completed") "implementation_completed") 0 with
        | ok t =>
            left
            refine ⟨t, hl, ?_⟩
            exact code_gate_loop_fuel_cases collab (MAX_FIX_ITERATIONS - 0).toNat
              (logEvent (logEvent (logEvent (setStatus s RunStatus.IMPLEMENTING)
                "implementation_started") "claude_completed") "implementation_completed")
              t 0 rfl (Or.inl (by decide)) hl
        | err t m =>
            right
            exact ⟨t, m, hl⟩


/-- Closed form of `run_pipeline`: the `except` handler and the `finally`
block composed around `pipeline_body`. -/
theorem run_pipeline_eq (collab : Collaborators) (c0 : RunContext) :
    run_pipeline collab c0 =
      (match pipeline_body collab { ctx := { c0 with started := true }, trace := [], nres := 0 } with
       | Outcome.ok s =>
           { ctx := { s.ctx with completed := true }
             trace := s.trace ++ ["pipeline_completed"]
             summary := some
               { status := s.ctx.status
                 error_message := s.ctx.error_message
                 iterations := s.ctx.current_iteration } }
       | Outcome.err s msg =>
           { ctx :=
               { s.ctx with
                   status := RunStatus.FAILED
                   error_message := msg
                   completed := true }
             trace := (s.trace ++ ["pipeline_error"]) ++ ["pipeline_completed"]
             summary := some
               { status := RunStatus.FAILED
                 error_message := msg
                 iterations := s.ctx.current_iteration } }) := by
  unfold run_pipeline
  cases pipeline_body collab { ctx := { c0 with started := true }, trace := [], nres := 0 } <;>
    rfl

/-- C6: every uncaught exception raised inside `run_pipeline`'s try body ends
the run in status FAILED with the exception's message stored verbatim as the
run's error message, and on every termination path the `finally` block stamps
the completion timestamp, writes the terminal run summary (carrying the
terminal status and error message), and emits `pipeline_completed` as the
final trace event. -/
theorem C6_exception_and_finally (collab : Collaborators) (c0 : RunContext) :
    ((run_pipeline collab c0).ctx.completed = true ∧
      (run_pipeline collab c0).summary = some
        { status := (run_pipeline collab c0).ctx.status,
          error_message := (run_pipeline collab c0).ctx.error_message,
          iterations := (run_pipeline collab c0).ctx.current_iteration } ∧
      (run_pipeline collab c0).trace.getLast? = some "pipeline_completed") ∧
    (∀ s msg,
      pipeline_body collab { ctx := { c0 with started := true }, trace := [], nres := 0 } =
          Outcome.err s msg →
      (run_pipeline collab c0).ctx.status = RunStatus.FAILED ∧
      (run_pipeline collab c0).ctx.error_message = msg) := by
  rw [run_pipeline_eq]
  cases hpb : pipeline_body collab { ctx := { c0 with started := true }, trace := [], nres := 0 } with
  | ok s =>
      refine ⟨⟨rfl, rfl, ?_⟩, ?_⟩
      · rw [List.getLast?_append_cons]
        rfl
      · intro t msg h
        exact absurd h (by simp)
  | err s msg =>
      refine ⟨⟨rfl, rfl, ?_⟩, ?_⟩
      · rw [List.getLast?_append_cons]
        rfl
      · intro t msg' h
        have h2 := (Outcome.err.inj h).2
        exact ⟨rfl, by rw [← h2]⟩

theorem C6_exception_and_finally_witness :
    pipeline_body fixture_failing_gen
        { ctx := { create_context true 5 97 2 ApprovalMode.AUTO with started := true },
          trace := [], nres := 0 } =
      Outcome.err fixture_err_state "Claude timed out after 600s" ∧
    (run_pipeline fixture_failing_gen (create_context true 5 97 2 ApprovalMode.AUTO)).ctx.status =
      RunStatus.FAILED ∧
    (run_pipeline fixture_failing_gen
        (create_context true 5 97 2 ApprovalMode.AUTO)).ctx.error_message =
      "Claude timed out after 600s" :=
  ⟨rfl,
   ((C6_exception_and_finally fixture_failing_gen
        (create_context true 5 97 2 ApprovalMode.AUTO)).2
      fixture_err_state "Claude timed out after 600s" rfl).1,
   ((C6_exception_and_finally fixture_failing_gen
        (create_context true 5 97 2 ApprovalMode.AUTO)).2
      fixture_err_state "Claude timed out after 600s" rfl).2⟩

theorem plan_gate_after_gate_fail (collab : Collaborators) (s : PState) :
    plan_gate_after_gate collab s GateResult.FAIL =
      plan_gate_stuck_refine collab
        (logEvent { s with ctx := { s.ctx with stable_pass_count := 0 } } "plan_gate_failed") := by
  unfold plan_gate_after_gate
  rw [if_neg (by simp)]

theorem plan_gate_after_gate_pass_below (collab : Collaborators) (s : PState)
    (hb : s.ctx.stable_pass_count + 1 < s.ctx.stable_passes) :
    plan_gate_after_gate collab s GateResult.PASS =
      plan_gate_stuck_refine collab
        (logEvent { s with ctx := { s.ctx with
          stable_pass_count := s.ctx.stable_pass_count + 1 } } "plan_gate_passed") := by
  unfold plan_gate_after_gate
  rw [if_pos rfl]
  simp only [logEvent]
  rw [if_neg (by omega)]

theorem plan_gate_after_gate_pass_approved (collab : Collaborators) (s : PState)
    (p : PlanVersion)
    (hb : s.ctx.stable_passes ≤ s.ctx.stable_pass_count + 1)
    (hl : s.ctx.plan_versions.getLast? = some p) :
    ∃ s', plan_gate_after_gate collab s GateResult.PASS = BodyResult.brk s' ∧
      s'.ctx.final_plan = p.content ∧
      s'.ctx.stable_pass_count = s.ctx.stable_pass_count + 1 ∧
      s'.ctx.status = s.ctx.status ∧
      s'.ctx.plan_versions = s.ctx.plan_versions ∧
      s'.ctx.plan_gates = s.ctx.plan_gates := by
  unfold plan_gate_after_gate
  rw [if_pos rfl]
  simp only [logEvent]
  rw [if_pos (by omega), hl]
  exact ⟨_, rfl, rfl, rfl, rfl, rfl, rfl⟩

theorem plan_gate_body_eq_with_critique (collab : Collaborators) (s : PState)
    (c : CritiqueResult)
    (hcrit : collab.plan_critique s.ctx.plan_gates.length = Except.ok c) :
    plan_gate_body collab s =
      plan_gate_with_critique collab
        (logEvent (setStatus s RunStatus.PLAN_GATE) "plan_gate_started") c := by
  unfold plan_gate_body
  rw [hcrit]

theorem plan_gate_with_critique_not_blocked (collab : Collaborators) (s : PState)
    (c : CritiqueResult)
    (hb : should_block_at_gate s.ctx (check_gate c s.ctx.confidence_threshold) = false) :
    plan_gate_with_critique collab s c =
      plan_gate_after_gate collab
        (logEvent { s with ctx := { s.ctx with plan_gates := s.ctx.plan_gates ++ [c] } }
          "plan_gate_result")
        (check_gate c s.ctx.confidence_threshold) := by
  have hrfl : plan_gate_with_critique collab s c =
      (if should_block_at_gate
            (logEvent { s with ctx := { s.ctx with plan_gates := s.ctx.plan_gates ++ [c] } }
              "plan_gate_result").ctx
            (check_gate c s.ctx.confidence_threshold) = true then
        plan_gate_blocked collab
          (logEvent { s with ctx := { s.ctx with plan_gates := s.ctx.plan_gates ++ [c] } }
            "plan_gate_result")
          (check_gate c s.ctx.confidence_threshold)
      else
        plan_gate_after_gate collab
          (logEvent { s with ctx := { s.ctx with plan_gates := s.ctx.plan_gates ++ [c] } }
            "plan_gate_result")
          (check_gate c s.ctx.confidence_threshold)) := rfl
  rw [hrfl]
  rw [if_neg (by
    intro hcon
    have hcon' : should_block_at_gate s.ctx (check_gate c s.ctx.confidence_threshold) = true :=
      hcon
    rw [hb] at hcon'
    exact Bool.false_ne_true hcon')]

theorem plan_gate_with_critique_blocked_eq (collab : Collaborators) (s : PState)
    (c : CritiqueResult)
    (hb : should_block_at_gate s.ctx (check_gate c s.ctx.confidence_threshold) = true) :
    plan_gate_with_critique collab s c =
      plan_gate_blocked collab
        (logEvent { s with ctx := { s.ctx with plan_gates := s.ctx.plan_gates ++ [c] } }
          "plan_gate_result")
        (check_gate c s.ctx.confidence_threshold) := by
  have hrfl : plan_gate_with_critique collab s c =
      (if should_block_at_gate
            (logEvent { s with ctx := { s.ctx with plan_gates := s.ctx.plan_gates ++ [c] } }
              "plan_gate_result").ctx
            (check_gate c s.ctx.confidence_threshold) = true then
        plan_gate_blocked collab
          (logEvent { s with ctx := { s.ctx with plan_gates := s.ctx.plan_gates ++ [c] } }
            "plan_gate_result")
          (check_gate c s.ctx.confidence_threshold)
      else
        plan_gate_after_gate collab
          (logEvent { s with ctx := { s.ctx with plan_gates := s.ctx.plan_gates ++ [c] } }
            "plan_gate_result")
          (check_gate c s.ctx.confidence_threshold)) := rfl
  rw [hrfl]
  rw [if_pos (by exact hb)]

theorem plan_gate_blocked_action (collab : Collaborators) (s : PState) (gr : GateResult)
    (a f : String) (hres : collab.resolution s.nres = (a, f)) (hna : a ≠ "reject") :
    plan_gate_blocked collab s gr =
      plan_gate_after_gate collab (gate_resolution_step collab s).1
        (if a = "approve" then GateResult.PASS
         else if a = "request_changes" then GateResult.FAIL
         else gr) := by
  simp only [plan_gate_blocked]
  have h2 : (gate_resolution_step collab s).2 = a := by
    simp only [gate_resolution_step, logEvent, hres]
  rw [h2, if_neg hna]

/-- C2: in the plan-gate loop, after an automated gate FAIL (approval mode
AUTO, so no human blocking intervenes), the run terminates immediately in the
STUCK terminal state — with no further refine call (the plan-version history
is unchanged) and no further critique call (only this iteration's critique is
recorded) — exactly when the history holds at least 3 plan versions and the 3
most recent have an identical content hash; with fewer than 3 versions, or
with any difference among the last 3 hashes, the body is not declared stuck
and instead proceeds to a refine (appending a new plan version) or to that
refine call's exception. -/
theorem C2_stuck_after_fail (collab : Collaborators) (s : PState) (c : CritiqueResult)
    (hin : s.ctx.current_iteration ≤ s.ctx.max_iterations)
    (hmode : s.ctx.approval_mode = ApprovalMode.AUTO)
    (hcrit : collab.plan_critique s.ctx.plan_gates.length = Except.ok c)
    (hfail : check_gate c s.ctx.confidence_threshold = GateResult.FAIL) :
    ((3 ≤ s.ctx.plan_versions.length ∧
        ∃ h, (s.ctx.plan_versions.drop (s.ctx.plan_versions.length - 3)).map PlanVersion.hash
          = [h, h, h]) →
      ∃ s', plan_gate_loop collab s = Outcome.ok s' ∧
        s'.ctx.status = RunStatus.STUCK ∧
        s'.ctx.error_message = "Pipeline stuck: plan hash repeated 3 times" ∧
        s'.ctx.plan_versions = s.ctx.plan_versions ∧
        s'.ctx.plan_gates = s.ctx.plan_gates ++ [c]) ∧
    (¬(3 ≤ s.ctx.plan_versions.length ∧
        ∃ h, (s.ctx.plan_versions.drop (s.ctx.plan_versions.length - 3)).map PlanVersion.hash
          = [h, h, h]) →
      (∀ s', plan_gate_body collab s ≠ BodyResult.brk s') ∧
      (∀ s', plan_gate_body collab s = BodyResult.next s' →
        s'.ctx.status = RunStatus.REFINING ∧
        s'.ctx.plan_versions.length = s.ctx.plan_versions.length + 1)) := by
  have hb0 : should_block_at_gate s.ctx (check_gate c s.ctx.confidence_threshold) = false := by
    unfold should_block_at_gate
    rw [hmode]
  obtain ⟨t, hbody, htv, htg⟩ : ∃ t, plan_gate_body collab s = plan_gate_stuck_refine collab t ∧
      t.ctx.plan_versions = s.ctx.plan_versions ∧
      t.ctx.plan_gates = s.ctx.plan_gates ++ [c] := by
    rw [plan_gate_body_eq_with_critique collab s c hcrit,
      plan_gate_with_critique_not_blocked collab
        (logEvent (setStatus s RunStatus.PLAN_GATE) "plan_gate_started") c hb0]
    rw [show check_gate c (logEvent (setStatus s RunStatus.PLAN_GATE)
      "plan_gate_started").ctx.confidence_threshold = GateResult.FAIL from hfail]
    rw [plan_gate_after_gate_fail]
    exact ⟨_, rfl, rfl, rfl⟩
  constructor
  · intro hcond
    have hds : detect_stuck t.ctx = true := by
      rw [detect_stuck_congr t.ctx s.ctx htv]
      exact (detect_stuck_true_iff s.ctx).mpr hcond
    obtain ⟨s', heq, hst, hmsg, hv, hg, -, -, -⟩ := plan_gate_stuck_refine_stuck collab t hds
    rw [plan_gate_loop_eq, if_pos hin, hbody, heq]
    exact ⟨s', rfl, hst, hmsg, hv.trans htv, hg.trans htg⟩
  · intro hcond
    have hds : detect_stuck t.ctx = false := by
      rw [detect_stuck_congr t.ctx s.ctx htv]
      cases hd : detect_stuck s.ctx
      · rfl
      · exact absurd ((detect_stuck_true_iff s.ctx).mp hd) hcond
    constructor
    · intro s' hbrk
      rw [hbody] at hbrk
      obtain ⟨hds', -, -, -, -, -, -, -⟩ := plan_gate_stuck_refine_brk_inv collab t s' hbrk
      rw [hds] at hds'
      exact Bool.false_ne_true hds'
    · intro s' hnext
      rw [hbody] at hnext
      obtain ⟨-, -, -, -, -, -, -, -, -, -, hst, hlen⟩ :=
        plan_gate_stuck_refine_next_inv collab t s' hnext
      refine ⟨hst, ?_⟩
      rw [hlen, htv]

theorem C2_stuck_after_fail_witness :
    ∃ s', plan_gate_loop fixture_failing_gen fixture_stuck_state = Outcome.ok s' ∧
      s'.ctx.status = RunStatus.STUCK ∧
      s'.ctx.error_message = "Pipeline stuck: plan hash repeated 3 times" ∧
      s'.ctx.plan_versions = fixture_stuck_state.ctx.plan_versions ∧
      s'.ctx.plan_gates = fixture_stuck_state.ctx.plan_gates ++ [⟨0, false, [], [], ""⟩] :=
  (C2_stuck_after_fail fixture_failing_gen fixture_stuck_state ⟨0, false, [], [], ""⟩
    (by decide) rfl rfl (by decide)).1 ⟨by decide, "p", rfl⟩

/-- C10: a plan-gate PASS whose stable-pass count is still below the required
threshold does not freeze the plan and does not re-critique the same plan:
the body runs the stuck check and, when not stuck, immediately refines —
appending a new plan version to the history, with the stable counter carried
forward incremented — before any further critique; and when the three most
recent plan versions are hash-identical, the loop instead terminates STUCK
even though this gate evaluation passed. -/
theorem C10_pass_below_threshold (collab : Collaborators) (s : PState) (c : CritiqueResult)
    (hin : s.ctx.current_iteration ≤ s.ctx.max_iterations)
    (hmode : s.ctx.approval_mode = ApprovalMode.AUTO)
    (hcrit : collab.plan_critique s.ctx.plan_gates.length = Except.ok c)
    (hpass : check_gate c s.ctx.confidence_threshold = GateResult.PASS)
    (hbelow : s.ctx.stable_pass_count + 1 < s.ctx.stable_passes) :
    (∀ r, collab.refine_plan s.ctx.plan_versions.length = Except.ok r →
      ¬(3 ≤ s.ctx.plan_versions.length ∧
        ∃ h, (s.ctx.plan_versions.drop (s.ctx.plan_versions.length - 3)).map PlanVersion.hash
          = [h, h, h]) →
      ∃ s', plan_gate_body collab s = BodyResult.next s' ∧
        s'.ctx.status = RunStatus.REFINING ∧
        s'.ctx.plan_versions = s.ctx.plan_versions ++
          [mkPlanVersion collab.hashFn (s.ctx.current_iteration + 1) r] ∧
        s'.ctx.plan_gates = s.ctx.plan_gates ++ [c] ∧
        s'.ctx.stable_pass_count = s.ctx.stable_pass_count + 1 ∧
        s'.ctx.final_plan = s.ctx.final_plan) ∧
    ((3 ≤ s.ctx.plan_versions.length ∧
        ∃ h, (s.ctx.plan_versions.drop (s.ctx.plan_versions.length - 3)).map PlanVersion.hash
          = [h, h, h]) →
      ∃ s', plan_gate_loop collab s = Outcome.ok s' ∧
        s'.ctx.status = RunStatus.STUCK ∧
        s'.ctx.plan_versions = s.ctx.plan_versions ∧
        s'.ctx.final_plan = s.ctx.final_plan) := by
  have hb0 : should_block_at_gate s.ctx (check_gate c s.ctx.confidence_threshold) = false := by
    unfold should_block_at_gate
    rw [hmode]
  obtain ⟨t, hbody, htv, htg, hts, htf, hti⟩ :
      ∃ t, plan_gate_body collab s = plan_gate_stuck_refine collab t ∧
        t.ctx.plan_versions = s.ctx.plan_versions ∧
        t.ctx.plan_gates = s.ctx.plan_gates ++ [c] ∧
        t.ctx.stable_pass_count = s.ctx.stable_pass_count + 1 ∧
        t.ctx.final_plan = s.ctx.final_plan ∧
        t.ctx.current_iteration = s.ctx.current_iteration := by
    rw [plan_gate_body_eq_with_critique collab s c hcrit,
      plan_gate_with_critique_not_blocked collab
        (logEvent (setStatus s RunStatus.PLAN_GATE) "plan_gate_started") c hb0]
    rw [show check_gate c (logEvent (setStatus s RunStatus.PLAN_GATE)
      "plan_gate_started").ctx.confidence_threshold = GateResult.PASS from hpass]
    rw [plan_gate_after_gate_pass_below collab
      (logEvent { (logEvent (setStatus s RunStatus.PLAN_GATE) "plan_gate_started") with
        ctx := { (logEvent (setStatus s RunStatus.PLAN_GATE) "plan_gate_started").ctx with
          plan_gates := (logEvent (setStatus s RunStatus.PLAN_GATE)
            "plan_gate_started").ctx.plan_gates ++ [c] } } "plan_gate_result")
      (by exact hbelow)]
    exact ⟨_, rfl, rfl, rfl, rfl, rfl, rfl⟩
  constructor
  · intro r href hnst
    have hds : detect_stuck t.ctx = false := by
      rw [detect_stuck_congr t.ctx s.ctx htv]
      cases hd : detect_stuck s.ctx
      · rfl
      · exact absurd ((detect_stuck_true_iff s.ctx).mp hd) hnst
    have href' : collab.refine_plan t.ctx.plan_versions.length = Except.ok r := by
      rw [htv]
      exact href
    obtain ⟨s', heq, hst, -, -, -, -, -, -, hsc, hg, hf, -, hv⟩ :=
      plan_gate_stuck_refine_ok collab t r hds href'
    refine ⟨s', hbody.trans heq, hst, ?_, hg.trans htg, hsc.trans hts, hf.trans htf⟩
    rw [hv, htv, hti]
  · intro hcond
    have hds : detect_stuck t.ctx = true := by
      rw [detect_stuck_congr t.ctx s.ctx htv]
      exact (detect_stuck_true_iff s.ctx).mpr hcond
    obtain ⟨s', heq, hst, -, hv, -, hf, -, -⟩ := plan_gate_stuck_refine_stuck collab t hds
    rw [plan_gate_loop_eq, if_pos hin, hbody, heq]
    exact ⟨s', rfl, hst, hv.trans htv, hf.trans htf⟩

theorem C10_pass_below_threshold_witness :
    ∃ s', plan_gate_body fixture_empty_plan fixture_pass_state = BodyResult.next s' ∧
      s'.ctx.status = RunStatus.REFINING ∧
      s'.ctx.plan_versions = fixture_pass_state.ctx.plan_versions ++
        [mkPlanVersion fixture_empty_plan.hashFn
          (fixture_pass_state.ctx.current_iteration + 1) ""] ∧
      s'.ctx.plan_gates = fixture_pass_state.ctx.plan_gates ++ [⟨100, true, [], [], ""⟩] ∧
      s'.ctx.stable_pass_count = fixture_pass_state.ctx.stable_pass_count + 1 ∧
      s'.ctx.final_plan = fixture_pass_state.ctx.final_plan :=
  (C10_pass_below_threshold fixture_empty_plan fixture_pass_state ⟨100, true, [], [], ""⟩
    (by decide) rfl rfl (by decide) (by decide)).1 "" rfl
    (fun hcon => absurd hcon.1 (by decide))

theorem plan_gate_body_blocked (collab : Collaborators) (s : PState) (c : CritiqueResult)
    (a f : String)
    (hcrit : collab.plan_critique s.ctx.plan_gates.length = Except.ok c)
    (hblock : should_block_at_gate s.ctx (check_gate c s.ctx.confidence_threshold) = true)
    (hres : collab.resolution s.nres = (a, f)) (hna : a ≠ "reject") :
    ∃ t, plan_gate_body collab s =
        plan_gate_after_gate collab t
          (if a = "approve" then GateResult.PASS
           else if a = "request_changes" then GateResult.FAIL
           else check_gate c s.ctx.confidence_threshold) ∧
      t.ctx.plan_versions = s.ctx.plan_versions ∧
      t.ctx.plan_gates = s.ctx.plan_gates ++ [c] ∧
      t.ctx.stable_pass_count = s.ctx.stable_pass_count ∧
      t.ctx.stable_passes = s.ctx.stable_passes ∧
      t.ctx.final_plan = s.ctx.final_plan ∧
      t.ctx.current_iteration = s.ctx.current_iteration ∧
      t.ctx.status = RunStatus.PLAN_GATE := by
  rw [plan_gate_body_eq_with_critique collab s c hcrit]
  rw [plan_gate_with_critique_blocked_eq collab
    (logEvent (setStatus s RunStatus.PLAN_GATE) "plan_gate_started") c (by exact hblock)]
  rw [plan_gate_blocked_action collab
    (logEvent { (logEvent (setStatus s RunStatus.PLAN_GATE) "plan_gate_started") with
      ctx := { (logEvent (setStatus s RunStatus.PLAN_GATE) "plan_gate_started").ctx with
        plan_gates := (logEvent (setStatus s RunStatus.PLAN_GATE)
          "plan_gate_started").ctx.plan_gates ++ [c] } } "plan_gate_result")
    (check_gate c (logEvent (setStatus s RunStatus.PLAN_GATE)
      "plan_gate_started").ctx.confidence_threshold)
    a f (by exact hres) hna]
  exact ⟨_, rfl, rfl, rfl, rfl, rfl, rfl, rfl, rfl⟩

theorem code_gate_body_eq_with_critique (collab : Collaborators) (s : PState)
    (c : CritiqueResult) (fi : Int) (d : String)
    (hdiff : collab.get_diff = Except.ok d)
    (hcrit : collab.code_critique s.ctx.code_gates.length = Except.ok c) :
    code_gate_body collab s fi =
      code_gate_with_critique collab
        (logEvent (setStatus s RunStatus.CODE_GATE) "code_gate_started") c fi := by
  unfold code_gate_body
  rw [hdiff, hcrit]

theorem code_gate_with_critique_blocked_eq (collab : Collaborators) (s : PState)
    (c : CritiqueResult) (fi : Int)
    (hb : should_block_at_gate s.ctx (check_gate c s.ctx.confidence_threshold) = true) :
    code_gate_with_critique collab s c fi =
      code_gate_blocked collab
        (logEvent { s with ctx := { s.ctx with code_gates := s.ctx.code_gates ++ [c] } }
          "code_gate_result")
        (check_gate c s.ctx.confidence_threshold) fi := by
  have hrfl : code_gate_with_critique collab s c fi =
      (if should_block_at_gate
            (logEvent { s with ctx := { s.ctx with code_gates := s.ctx.code_gates ++ [c] } }
              "code_gate_result").ctx
            (check_gate c s.ctx.confidence_threshold) = true then
        code_gate_blocked collab
          (logEvent { s with ctx := { s.ctx with code_gates := s.ctx.code_gates ++ [c] } }
            "code_gate_result")
          (check_gate c s.ctx.confidence_threshold) fi
      else
        code_gate_after collab
          (logEvent { s with ctx := { s.ctx with code_gates := s.ctx.code_gates ++ [c] } }
            "code_gate_result")
          (check_gate c s.ctx.confidence_threshold) fi) := rfl
  rw [hrfl]
  rw [if_pos (by exact hb)]

theorem code_gate_blocked_action (collab : Collaborators) (s : PState) (gr : GateResult)
    (fi : Int) (a f : String)
    (hres : collab.resolution s.nres = (a, f)) (hna : a ≠ "reject") :
    code_gate_blocked collab s gr fi =
      code_gate_after collab (gate_resolution_step collab s).1
        (if a = "approve" then GateResult.PASS
         else if a = "request_changes" then GateResult.FAIL
         else gr) fi := by
  simp only [code_gate_blocked]
  have h2 : (gate_resolution_step collab s).2 = a := by
    simp only [gate_resolution_step, logEvent, hres]
  rw [h2, if_neg hna]

theorem code_gate_body_blocked (collab : Collaborators) (s : PState) (c : CritiqueResult)
    (fi : Int) (a f d : String)
    (hdiff : collab.get_diff = Except.ok d)
    (hcrit : collab.code_critique s.ctx.code_gates.length = Except.ok c)
    (hblock : should_block_at_gate s.ctx (check_gate c s.ctx.confidence_threshold) = true)
    (hres : collab.resolution s.nres = (a, f)) (hna : a ≠ "reject") :
    ∃ t, code_gate_body collab s fi =
        code_gate_after collab t
          (if a = "approve" then GateResult.PASS
           else if a = "request_changes" then GateResult.FAIL
           else check_gate c s.ctx.confidence_threshold) fi ∧
      t.ctx.status = RunStatus.CODE_GATE := by
  rw [code_gate_body_eq_with_critique collab s c fi d hdiff hcrit]
  rw [code_gate_with_critique_blocked_eq collab
    (logEvent (setStatus s RunStatus.CODE_GATE) "code_gate_started") c fi (by exact hblock)]
  rw [code_gate_blocked_action collab
    (logEvent { (logEvent (setStatus s RunStatus.CODE_GATE) "code_gate_started") with
      ctx := { (logEvent (setStatus s RunStatus.CODE_GATE) "code_gate_started").ctx with
        code_gates := (logEvent (setStatus s RunStatus.CODE_GATE)
          "code_gate_started").ctx.code_gates ++ [c] } } "code_gate_result")
    (check_gate c (logEvent (setStatus s RunStatus.CODE_GATE)
      "code_gate_started").ctx.confidence_threshold)
    fi a f (by exact hres) hna]
  exact ⟨_, rfl, rfl⟩

theorem code_gate_after_pass (collab : Collaborators) (s : PState) (fi : Int) :
    code_gate_after collab s GateResult.PASS fi =
      CodeBodyResult.brk (logEvent (setStatus s RunStatus.SUCCESS) "code_gate_passed") := by
  unfold code_gate_after
  rw [if_pos rfl]

theorem code_gate_after_fail_retry (collab : Collaborators) (s : PState) (fi : Int)
    (l : String)
    (hlt : fi + 1 < MAX_FIX_ITERATIONS)
    (hfx : collab.fix_code (fi + 1).toNat = Except.ok l) :
    ∃ s', code_gate_after collab s GateResult.FAIL fi = CodeBodyResult.next s' (fi + 1) ∧
      s'.ctx.status = RunStatus.FIXING := by
  unfold code_gate_after
  rw [if_neg (by simp)]
  simp only [logEvent, setStatus]
  rw [if_pos hlt, hfx]
  exact ⟨_, rfl, rfl⟩

/-- C4: at a plan gate or a code gate where the approval policy blocks for a
human (the blocking predicate holds, under the spec-modelled approval modes),
the human resolution is applied on top of the automated verdict: an `approve`
action overrides an automated FAIL so the gate proceeds as PASS (the plan gate
freezes the latest plan version as the final plan and breaks; the code gate
sets the terminal SUCCESS state and breaks), and a `request_changes` action
forces another refine (resp. fix) cycle even though the automated evaluation
was PASS (the plan gate resets the stable counter and refines, appending a new
plan version; the code gate transitions to FIXING with an incremented fix
iteration). -/
theorem C4_human_override :
    (∀ collab : Collaborators, ∀ s : PState, ∀ c : CritiqueResult, ∀ f : String,
      ∀ p : PlanVersion,
      collab.plan_critique s.ctx.plan_gates.length = Except.ok c →
      should_block_at_gate s.ctx (check_gate c s.ctx.confidence_threshold) = true →
      check_gate c s.ctx.confidence_threshold = GateResult.FAIL →
      collab.resolution s.nres = ("approve", f) →
      s.ctx.stable_passes ≤ s.ctx.stable_pass_count + 1 →
      s.ctx.plan_versions.getLast? = some p →
      ∃ s', plan_gate_body collab s = BodyResult.brk s' ∧
        s'.ctx.final_plan = p.content ∧
        s'.ctx.status = RunStatus.PLAN_GATE ∧
        s'.ctx.stable_pass_count = s.ctx.stable_pass_count + 1) ∧
    (∀ collab : Collaborators, ∀ s : PState, ∀ c : CritiqueResult, ∀ f r : String,
      collab.plan_critique s.ctx.plan_gates.length = Except.ok c →
      should_block_at_gate s.ctx (check_gate c s.ctx.confidence_threshold) = true →
      check_gate c s.ctx.confidence_threshold = GateResult.PASS →
      collab.resolution s.nres = ("request_changes", f) →
      collab.refine_plan s.ctx.plan_versions.length = Except.ok r →
      ¬(3 ≤ s.ctx.plan_versions.length ∧
        ∃ h, (s.ctx.plan_versions.drop (s.ctx.plan_versions.length - 3)).map PlanVersion.hash
          = [h, h, h]) →
      ∃ s', plan_gate_body collab s = BodyResult.next s' ∧
        s'.ctx.status = RunStatus.REFINING ∧
        s'.ctx.plan_versions.length = s.ctx.plan_versions.length + 1 ∧
        s'.ctx.stable_pass_count = 0 ∧
        s'.ctx.final_plan = s.ctx.final_plan) ∧
    (∀ collab : Collaborators, ∀ s : PState, ∀ c : CritiqueResult, ∀ fi : Int,
      ∀ f d : String,
      collab.get_diff = Except.ok d →
      collab.code_critique s.ctx.code_gates.length = Except.ok c →
      should_block_at_gate s.ctx (check_gate c s.ctx.confidence_threshold) = true →
      check_gate c s.ctx.confidence_threshold = GateResult.FAIL →
      collab.resolution s.nres = ("approve", f) →
      ∃ s', code_gate_body collab s fi = CodeBodyResult.brk s' ∧
        s'.ctx.status = RunStatus.SUCCESS) ∧
    (∀ collab : Collaborators, ∀ s : PState, ∀ c : CritiqueResult, ∀ fi : Int,
      ∀ f d l : String,
      collab.get_diff = Except.ok d →
      collab.code_critique s.ctx.code_gates.length = Except.ok c →
      should_block_at_gate s.ctx (check_gate c s.ctx.confidence_threshold) = true →
      check_gate c s.ctx.confidence_threshold = GateResult.PASS →
      collab.resolution s.nres = ("request_changes", f) →
      fi + 1 < MAX_FIX_ITERATIONS →
      collab.fix_code (fi + 1).toNat = Except.ok l →
      ∃ s', code_gate_body collab s fi = CodeBodyResult.next s' (fi + 1) ∧
        s'.ctx.status = RunStatus.FIXING) := by
  refine ⟨?_, ?_, ?_, ?_⟩
  · intro collab s c f p hcrit hblock hfail hres hsp hlast
    obtain ⟨t, hbody, htv, htg, htsc, htsp, htf, hti, htst⟩ :=
      plan_gate_body_blocked collab s c "approve" f hcrit hblock hres (by decide)
    have hbody2 : plan_gate_body collab s =
        plan_gate_after_gate collab t GateResult.PASS := hbody
    have hsp' : t.ctx.stable_passes ≤ t.ctx.stable_pass_count + 1 := by
      rw [htsp, htsc]
      exact hsp
    have hlast' : t.ctx.plan_versions.getLast? = some p := by
      rw [htv]
      exact hlast
    obtain ⟨s', heq, hfp, hsc, hstt, -, -⟩ :=
      plan_gate_after_gate_pass_approved collab t p hsp' hlast'
    exact ⟨s', hbody2.trans heq, hfp, hstt.trans htst, hsc.trans (by rw [htsc])⟩
  · intro collab s c f r hcrit hblock hpass hres href hnst
    obtain ⟨t, hbody, htv, htg, htsc, htsp, htf, hti, htst⟩ :=
      plan_gate_body_blocked collab s c "request_changes" f hcrit hblock hres (by decide)
    have hbody2 : plan_gate_body collab s =
        plan_gate_after_gate collab t GateResult.FAIL := hbody
    rw [plan_gate_after_gate_fail] at hbody2
    have htv2 : (logEvent { t with ctx := { t.ctx with stable_pass_count := 0 } }
        "plan_gate_failed").ctx.plan_versions = s.ctx.plan_versions := htv
    have hds : detect_stuck (logEvent { t with ctx := { t.ctx with stable_pass_count := 0 } }
        "plan_gate_failed").ctx = false := by
      rw [detect_stuck_congr _ s.ctx htv2]
      cases hd : detect_stuck s.ctx
      · rfl
      · exact absurd ((detect_stuck_true_iff s.ctx).mp hd) hnst
    have href' : collab.refine_plan (logEvent { t with ctx :=
        { t.ctx with stable_pass_count := 0 } } "plan_gate_failed").ctx.plan_versions.length =
        Except.ok r := by
      rw [htv2]
      exact href
    obtain ⟨s', heq, hst, -, -, -, -, -, -, hsc, -, hf, -, hv⟩ :=
      plan_gate_stuck_refine_ok collab
        (logEvent { t with ctx := { t.ctx with stable_pass_count := 0 } } "plan_gate_failed")
        r hds href'
    refine ⟨s', hbody2.trans heq, hst, ?_, hsc.trans rfl, hf.trans (htf : _ = _)⟩
    rw [hv, htv2]
    simp
  · intro collab s c fi f d hdiff hcrit hblock hfail hres
    obtain ⟨t, hbody, -⟩ :=
      code_gate_body_blocked collab s c fi "approve" f d hdiff hcrit hblock hres (by decide)
    have hbody2 : code_gate_body collab s fi =
        code_gate_after collab t GateResult.PASS fi := hbody
    rw [code_gate_after_pass] at hbody2
    exact ⟨_, hbody2, rfl⟩
  · intro collab s c fi f d l hdiff hcrit hblock hpass hres hlt hfx
    obtain ⟨t, hbody, -⟩ :=
      code_gate_body_blocked collab s c fi "request_changes" f d hdiff hcrit hblock hres
        (by decide)
    have hbody2 : code_gate_body collab s fi =
        code_gate_after collab t GateResult.FAIL fi := hbody
    obtain ⟨s', heq, hstt⟩ := code_gate_after_fail_retry collab t fi l hlt hfx
    exact ⟨s', hbody2.trans heq, hstt⟩

theorem C4_human_override_witness :
    (∃ s', plan_gate_body fixture_failing_gen fixture_gate_state = BodyResult.brk s' ∧
      s'.ctx.final_plan = (mkPlanVersion id 1 "p").content ∧
      s'.ctx.status = RunStatus.PLAN_GATE ∧
      s'.ctx.stable_pass_count = fixture_gate_state.ctx.stable_pass_count + 1) ∧
    (∃ s', plan_gate_body fixture_rc fixture_always_state = BodyResult.next s' ∧
      s'.ctx.status = RunStatus.REFINING ∧
      s'.ctx.plan_versions.length = fixture_always_state.ctx.plan_versions.length + 1 ∧
      s'.ctx.stable_pass_count = 0 ∧
      s'.ctx.final_plan = fixture_always_state.ctx.final_plan) ∧
    (∃ s', code_gate_body fixture_failing_gen fixture_gate_state 0 = CodeBodyResult.brk s' ∧
      s'.ctx.status = RunStatus.SUCCESS) ∧
    (∃ s', code_gate_body fixture_rc fixture_always_state 0 = CodeBodyResult.next s' (0 + 1) ∧
      s'.ctx.status = RunStatus.FIXING) :=
  ⟨C4_human_override.1 fixture_failing_gen fixture_gate_state ⟨0, false, [], [], ""⟩ ""
      (mkPlanVersion id 1 "p") rfl (by decide) (by decide) rfl (by decide) rfl,
   C4_human_override.2.1 fixture_rc fixture_always_state ⟨100, true, [], [], ""⟩ "" "q"
      rfl (by decide) (by decide) rfl rfl (fun hcon => absurd hcon.1 (by decide)),
   C4_human_override.2.2.1 fixture_failing_gen fixture_gate_state ⟨0, false, [], [], ""⟩ 0
      "" "" rfl rfl (by decide) (by decide) rfl,
   C4_human_override.2.2.2 fixture_rc fixture_always_state ⟨100, true, [], [], ""⟩ 0
      "" "" "log" rfl rfl (by decide) (by decide) rfl (by decide) rfl⟩

theorem plan_gate_body_auto_fail (collab : Collaborators) (s : PState) (c : CritiqueResult)
    (hmode : s.ctx.approval_mode = ApprovalMode.AUTO)
    (hcrit : collab.plan_critique s.ctx.plan_gates.length = Except.ok c)
    (hfail : check_gate c s.ctx.confidence_threshold = GateResult.FAIL) :
    ∃ t, plan_gate_body collab s = plan_gate_stuck_refine collab t ∧
      t.ctx.plan_versions = s.ctx.plan_versions ∧
      t.ctx.plan_gates = s.ctx.plan_gates ++ [c] ∧
      t.ctx.final_plan = s.ctx.final_plan ∧
      t.ctx.current_iteration = s.ctx.current_iteration ∧
      t.ctx.max_iterations = s.ctx.max_iterations ∧
      t.ctx.confidence_threshold = s.ctx.confidence_threshold ∧
      t.ctx.approval_mode = s.ctx.approval_mode ∧
      t.ctx.stable_passes = s.ctx.stable_passes := by
  have hb0 : should_block_at_gate s.ctx (check_gate c s.ctx.confidence_threshold) = false := by
    unfold should_block_at_gate
    rw [hmode]
  rw [plan_gate_body_eq_with_critique collab s c hcrit,
    plan_gate_with_critique_not_blocked collab
      (logEvent (setStatus s RunStatus.PLAN_GATE) "plan_gate_started") c hb0]
  rw [show check_gate c (logEvent (setStatus s RunStatus.PLAN_GATE)
    "plan_gate_started").ctx.confidence_threshold = GateResult.FAIL from hfail]
  rw [plan_gate_after_gate_fail]
  exact ⟨_, rfl, rfl, rfl, rfl, rfl, rfl, rfl, rfl, rfl⟩

/-- A context whose plan-version hashes are pairwise distinct is never
detected as stuck. -/
theorem detect_stuck_of_pairwise (ctx : RunContext)
    (hpw : (ctx.plan_versions.map PlanVersion.hash).Pairwise (fun a b => a ≠ b)) :
    detect_stuck ctx = false := by
  cases hd : detect_stuck ctx
  · rfl
  · exfalso
    obtain ⟨-, h, hdrop⟩ := (detect_stuck_true_iff ctx).mp hd
    have hp2 : ((ctx.plan_versions.drop (ctx.plan_versions.length - 3)).map
        PlanVersion.hash).Pairwise (fun a b => a ≠ b) := by
      rw [List.map_drop]
      exact hpw.drop
    rw [hdrop] at hp2
    simp at hp2

/-- Fuel-indexed exhaustion of the PLAN_GATE loop: when every critique fails
the automated gate, the mode is AUTO, and successive plan versions carry
pairwise distinct hashes (`hs` enumerates them), the loop consumes all its
fuel — one critique and one refine per iteration, never breaking STUCK — and
exits with `current_iteration = max_iterations + 1`, an empty final plan, and
exactly one recorded plan-gate critique per iteration. -/
theorem plan_gate_loop_fuel_exhaust (collab : Collaborators) (T M : Int) (hs : Nat → String)
    (hcrit : ∀ n, ∃ c, collab.plan_critique n = Except.ok c ∧
      check_gate c T = GateResult.FAIL)
    (href : ∀ n, 1 ≤ n → ∃ r, collab.refine_plan n = Except.ok r ∧ collab.hashFn r = hs n)
    (hdist : ∀ i j, i < j → hs i ≠ hs j) :
    ∀ (fuel : Nat) (s : PState),
      s.ctx.approval_mode = ApprovalMode.AUTO →
      s.ctx.confidence_threshold = T →
      s.ctx.max_iterations = M →
      s.ctx.final_plan = "" →
      s.ctx.current_iteration = Int.ofNat s.ctx.plan_versions.length →
      s.ctx.plan_versions.map PlanVersion.hash
        = (List.range s.ctx.plan_versions.length).map hs →
      1 ≤ s.ctx.plan_versions.length →
      s.ctx.current_iteration ≤ M + 1 →
      fuel = (M + 1 - s.ctx.current_iteration).toNat →
      ∃ s', plan_gate_loop_fuel collab fuel s = Outcome.ok s' ∧
        s'.ctx.final_plan = "" ∧
        s'.ctx.max_iterations = M ∧
        s'.ctx.current_iteration = M + 1 ∧
        s'.ctx.plan_gates.length = s.ctx.plan_gates.length + fuel := by
  intro fuel
  induction fuel with
  | zero =>
      intro s hmode hthr hmax hfp hiv hmap hn1 hle hfuel
      exact ⟨s, rfl, hfp, hmax, by omega, by omega⟩
  | succ k ih =>
      intro s hmode hthr hmax hfp hiv hmap hn1 hle hfuel
      obtain ⟨c, hc, hcf⟩ := hcrit s.ctx.plan_gates.length
      have hcf' : check_gate c s.ctx.confidence_threshold = GateResult.FAIL := by
        rw [hthr]
        exact hcf
      obtain ⟨t, hbody, htv, htg, htf, hti, htm, htc, hta, htsp⟩ :=
        plan_gate_body_auto_fail collab s c hmode hc hcf'
      have hds : detect_stuck t.ctx = false := by
        apply detect_stuck_of_pairwise
        rw [htv, hmap]
        exact List.Pairwise.map hs (fun a b hab => hdist a b hab) (List.pairwise_lt_range _)
      obtain ⟨r, hr, hhash⟩ := href s.ctx.plan_versions.length hn1
      have hr' : collab.refine_plan t.ctx.plan_versions.length = Except.ok r := by
        rw [htv]
        exact hr
      obtain ⟨s'', heq, hst, hi2, hm2, hc2, -, ha2, -, -, hg2, hf2, -, hv2⟩ :=
        plan_gate_stuck_refine_ok collab t r hds hr'
      have hstep : plan_gate_loop_fuel collab (k + 1) s = plan_gate_loop_fuel collab k s'' := by
        simp only [plan_gate_loop_fuel, hbody, heq]
      have hlen2 : s''.ctx.plan_versions.length = s.ctx.plan_versions.length + 1 := by
        rw [hv2, htv]
        simp
      have hsM : s.ctx.current_iteration ≤ M := by omega
      obtain ⟨s', hloop, hf', hm', hi', hg'⟩ := ih s''
        (ha2.trans (hta.trans hmode))
        (hc2.trans (htc.trans hthr))
        (hm2.trans (htm.trans hmax))
        (hf2.trans (htf.trans hfp))
        (by rw [hi2, hti, hiv, hlen2]; exact rfl)
        (by
          rw [hv2, htv, List.map_append, hmap, List.length_append]
          simp [mkPlanVersion, hhash, List.range_succ])
        (by rw [hlen2]; omega)
        (by rw [hi2, hti]; omega)
        (by rw [hi2, hti]; omega)
      have hglen2 : s''.ctx.plan_gates.length = s.ctx.plan_gates.length + 1 := by
        rw [hg2, htg]
        simp
      refine ⟨s', ?_, hf', hm', hi', ?_⟩
      · rw [hstep]
        exact hloop
      · rw [hg', hglen2]
        omega

/-- C3: when the plan-gate critique always fails the automated gate and the
successive plan versions have pairwise distinct content hashes, the run
terminates in the FAILED terminal state — not STUCK — with the error message
citing the max-iterations bound, after exactly `max_iterations` plan-gate
critique calls. -/
theorem C3_iteration_exhaustion (collab : Collaborators) (dr : Bool) (M T sp : Int)
    (hs : Nat → String)
    (hM : 1 ≤ M)
    (hgen : ∃ p, collab.generate_plan = Except.ok p ∧ collab.hashFn p = hs 0)
    (hcrit : ∀ n, ∃ c, collab.plan_critique n = Except.ok c ∧
      check_gate c T = GateResult.FAIL)
    (href : ∀ n, 1 ≤ n → ∃ r, collab.refine_plan n = Except.ok r ∧ collab.hashFn r = hs n)
    (hdist : ∀ i j, i < j → hs i ≠ hs j) :
    (run_pipeline collab (create_context dr M T sp ApprovalMode.AUTO)).ctx.status
        = RunStatus.FAILED ∧
    (run_pipeline collab (create_context dr M T sp ApprovalMode.AUTO)).ctx.status
        ≠ RunStatus.STUCK ∧
    (run_pipeline collab (create_context dr M T sp ApprovalMode.AUTO)).ctx.error_message
        = "Max iterations (" ++ toString M ++ ") reached without approval" ∧
    (run_pipeline collab (create_context dr M T sp ApprovalMode.AUTO)).ctx.plan_gates.length
        = M.toNat := by
  obtain ⟨p, hgenp, hhp⟩ := hgen
  obtain ⟨s₁, hp1, hi1, hm1, hf1, hd1, hst1, hv1, hg1, -, hc1, -, ha1, -⟩ :=
    planning_phase_ok collab
      { ctx := { create_context dr M T sp ApprovalMode.AUTO with started := true }
        trace := [], nres := 0 } p hgenp
  have hA : s₁.ctx.approval_mode = ApprovalMode.AUTO := ha1
  have hT : s₁.ctx.confidence_threshold = T := hc1
  have hMx : s₁.ctx.max_iterations = M := hm1
  have hF : s₁.ctx.final_plan = "" := hf1
  have hV : s₁.ctx.plan_versions = [mkPlanVersion collab.hashFn 1 p] := hv1
  have hgnil : s₁.ctx.plan_gates = [] := hg1
  obtain ⟨t, hloop, htf, htm, hti, htg⟩ :=
    plan_gate_loop_fuel_exhaust collab T M hs hcrit href hdist
      ((s₁.ctx.max_iterations + 1 - s₁.ctx.current_iteration).toNat) s₁
      hA hT hMx hF
      (by rw [hi1, hV]; rfl)
      (by rw [hV]; simp [mkPlanVersion, hhp, List.range_succ])
      (by rw [hV]; simp)
      (by rw [hi1]; omega)
      (by rw [hMx])
  have hl : plan_gate_loop collab s₁ = Outcome.ok t := hloop
  have hglen : t.ctx.plan_gates.length = M.toNat := by
    rw [htg, hgnil, hMx, hi1]
    simp
  have hcond : t.ctx.max_iterations < t.ctx.current_iteration ∧ t.ctx.final_plan = "" :=
    ⟨by rw [htm, hti]; omega, htf⟩
  have hmc : max_iterations_check t =
      logEvent { t with ctx := { t.ctx with
        status := RunStatus.FAILED
        error_message := "Max iterations (" ++ toString t.ctx.max_iterations ++
          ") reached without approval" } } "max_iterations_reached" := by
    unfold max_iterations_check
    rw [if_pos hcond]
  have himpl : implementation_phase collab (max_iterations_check t) =
      Outcome.ok (max_iterations_check t) :=
    (implementation_phase_spec collab _).1 (by rw [hmc]; exact htf)
  have h1 : pipeline_body collab
      { ctx := { create_context dr M T sp ApprovalMode.AUTO with started := true }
        trace := [], nres := 0 } =
      (match plan_gate_loop collab s₁ with
       | Outcome.err u m => Outcome.err u m
       | Outcome.ok u => implementation_phase collab (max_iterations_check u)) := by
    unfold pipeline_body
    rw [hp1]
  have h2 : pipeline_body collab
      { ctx := { create_context dr M T sp ApprovalMode.AUTO with started := true }
        trace := [], nres := 0 } =
      implementation_phase collab (max_iterations_check t) := by
    rw [h1, hl]
  have hpbody : pipeline_body collab
      { ctx := { create_context dr M T sp ApprovalMode.AUTO with started := true }
        trace := [], nres := 0 } = Outcome.ok (max_iterations_check t) := h2.trans himpl
  have hstat : (run_pipeline collab (create_context dr M T sp ApprovalMode.AUTO)).ctx.status
      = RunStatus.FAILED := by
    rw [run_pipeline_eq, hpbody, hmc]
    rfl
  have herr : (run_pipeline collab (create_context dr M T sp ApprovalMode.AUTO)).ctx.error_message
      = "Max iterations (" ++ toString M ++ ") reached without approval" := by
    rw [run_pipeline_eq, hpbody, hmc, htm]
    rfl
  have hgl : (run_pipeline collab
      (create_context dr M T sp ApprovalMode.AUTO)).ctx.plan_gates.length = M.toNat := by
    rw [run_pipeline_eq, hpbody, hmc]
    exact hglen
  exact ⟨hstat, by rw [hstat]; decide, herr, hgl⟩

/-- Strings of pairwise distinct replicate lengths are distinct. -/
theorem replicate_string_injective (i j : Nat)
    (h : String.mk (List.replicate i 'a') = String.mk (List.replicate j 'a')) : i = j := by
  have h2 : List.replicate i 'a' = List.replicate j 'a' := by
    injection h
  have h3 := congrArg List.length h2
  simpa using h3

theorem C3_iteration_exhaustion_witness :
    (run_pipeline fixture_changing (create_context false 2 97 2 ApprovalMode.AUTO)).ctx.status
        = RunStatus.FAILED ∧
    (run_pipeline fixture_changing (create_context false 2 97 2 ApprovalMode.AUTO)).ctx.status
        ≠ RunStatus.STUCK ∧
    (run_pipeline fixture_changing
        (create_context false 2 97 2 ApprovalMode.AUTO)).ctx.error_message
        = "Max iterations (" ++ toString (2 : Int) ++ ") reached without approval" ∧
    (run_pipeline fixture_changing
        (create_context false 2 97 2 ApprovalMode.AUTO)).ctx.plan_gates.length
        = (2 : Int).toNat :=
  C3_iteration_exhaustion fixture_changing false 2 97 2
    (fun n => String.mk (List.replicate n 'a'))
    (by decide)
    ⟨"", rfl, rfl⟩
    (fun n => ⟨⟨0, false, [], [], ""⟩, rfl, by decide⟩)
    (fun n h1 => ⟨String.mk (List.replicate n 'a'), rfl, rfl⟩)
    (fun i j hij heq => (Nat.ne_of_lt hij) (replicate_string_injective i j heq))

/-- C5 counterexample: the claim as stated is false on the code.  With a plan
generator that returns the empty string, a critique that approves it
(confidence 100, no blockers) and `stable_passes = 1`, the plan gate freezes
`final_plan = ""`; since the empty string is falsy in Python, both the
iteration-exhaustion check (line 405) and the implementation / dry-run
branches (lines 411, 514) are skipped, and the run returns still in the
PLAN_GATE status — not SUCCESS, FAILED or STUCK. -/
theorem C5_terminal_status_counterexample :
    (run_pipeline fixture_empty_plan
        (create_context true 5 97 1 ApprovalMode.AUTO)).ctx.status = RunStatus.PLAN_GATE ∧
    RunStatus.PLAN_GATE ≠ RunStatus.SUCCESS ∧
    RunStatus.PLAN_GATE ≠ RunStatus.FAILED ∧
    RunStatus.PLAN_GATE ≠ RunStatus.STUCK := by
  refine ⟨?_, by decide, by decide, by decide⟩
  rfl

/-- C5 (amended): provided every plan text produced by the plan generator and
the plan refiner is non-empty, every execution of `run_pipeline` that returns
ends with terminal status exactly one of SUCCESS, FAILED or STUCK — whether
by plan approval, human rejection, stuck detection, iteration or fix-retry
exhaustion, dry-run short-circuit, or an uncaught exception.  (The non-empty
proviso is forced by the counterexample: an approved empty plan leaves the
run in PLAN_GATE.) -/
theorem C5_terminal_status (collab : Collaborators) (dr : Bool) (M thr sp : Int)
    (am : ApprovalMode)
    (hgen : ∀ p, collab.generate_plan = Except.ok p → p ≠ "")
    (href : ∀ k r, collab.refine_plan k = Except.ok r → r ≠ "") :
    (run_pipeline collab (create_context dr M thr sp am)).ctx.status = RunStatus.SUCCESS ∨
    (run_pipeline collab (create_context dr M thr sp am)).ctx.status = RunStatus.FAILED ∨
    (run_pipeline collab (create_context dr M thr sp am)).ctx.status = RunStatus.STUCK := by
  rw [run_pipeline_eq]
  cases hpb : pipeline_body collab
      { ctx := { create_context dr M thr sp am with started := true }, trace := [], nres := 0 } with
  | err s msg =>
      right; left
      rfl
  | ok s =>
      have hs : s.ctx.status = RunStatus.SUCCESS ∨ s.ctx.status = RunStatus.FAILED ∨
          s.ctx.status = RunStatus.STUCK := by
        cases hg : collab.generate_plan with
        | error m =>
            obtain ⟨s₁, heq⟩ := planning_phase_err collab _ m hg
            unfold pipeline_body at hpb
            rw [heq] at hpb
            exact absurd hpb (by simp)
        | ok p =>
            obtain ⟨s₁, heq, hi1, hm1, hf1, hd1, hst1, hv1, -, -, -, -, -⟩ :=
              planning_phase_ok collab _ p hg
            unfold pipeline_body at hpb
            rw [heq] at hpb
            have hpb2 : (match plan_gate_loop collab s₁ with
                | Outcome.err u m => Outcome.err u m
                | Outcome.ok u => implementation_phase collab (max_iterations_check u)) =
                Outcome.ok s := hpb
            cases hl : plan_gate_loop collab s₁ with
            | err u m =>
                rw [hl] at hpb2
                exact absurd hpb2 (by simp)
            | ok t =>
                rw [hl] at hpb2
                have hpb3 : implementation_phase collab (max_iterations_check t) =
                    Outcome.ok s := hpb2
                have hv0 : ∀ v ∈ s₁.ctx.plan_versions, v.content ≠ "" := by
                  rw [hv1]
                  intro v hvin
                  simp only [create_context, List.nil_append, List.mem_singleton] at hvin
                  rw [hvin]
                  exact hgen p hg
                have hcl := plan_gate_loop_fuel_cases collab href
                  ((s₁.ctx.max_iterations + 1 - s₁.ctx.current_iteration).toNat) s₁ t rfl
                  hv0 hf1 hl
                rcases hcl with hfin | ⟨hst, hf2, hle⟩ | ⟨hf2, hgt⟩
                · have hmc : max_iterations_check t = t := by
                    unfold max_iterations_check
                    rw [if_neg (fun hcon => hfin hcon.2)]
                  rw [hmc] at hpb3
                  cases hdr : t.ctx.dry_run with
                  | true =>
                      obtain ⟨s', heqI, hstS⟩ :=
                        (implementation_phase_spec collab t).2.1 hfin hdr
                      rw [heqI] at hpb3
                      left
                      rw [← Outcome.ok.inj hpb3]
                      exact hstS
                  | false =>
                      rcases (implementation_phase_spec collab t).2.2 hfin hdr with
                        ⟨s', heqI, hS⟩ | ⟨s', m, heqI⟩
                      · rw [heqI] at hpb3
                        rcases hS with hS | hS
                        · left
                          rw [← Outcome.ok.inj hpb3]
                          exact hS
                        · right; left
                          rw [← Outcome.ok.inj hpb3]
                          exact hS
                      · rw [heqI] at hpb3
                        exact absurd hpb3 (by simp)
                · have hmc : max_iterations_check t = t := by
                    unfold max_iterations_check
                    rw [if_neg (fun hcon => absurd hcon.1 (by omega))]
                  rw [hmc] at hpb3
                  have hit : implementation_phase collab t = Outcome.ok t :=
                    (implementation_phase_spec collab t).1 hf2
                  rw [hit] at hpb3
                  have hts := Outcome.ok.inj hpb3
                  rw [← hts]
                  rcases hst with hst | hst
                  · right; left
                    exact hst
                  · right; right
                    exact hst
                · have hmcf : (max_iterations_check t).ctx.final_plan = "" ∧
                      (max_iterations_check t).ctx.status = RunStatus.FAILED := by
                    unfold max_iterations_check
                    rw [if_pos ⟨hgt, hf2⟩]
                    exact ⟨hf2, rfl⟩
                  have hit : implementation_phase collab (max_iterations_check t) =
                      Outcome.ok (max_iterations_check t) :=
                    (implementation_phase_spec collab _).1 hmcf.1
                  rw [hit] at hpb3
                  right; left
                  rw [← Outcome.ok.inj hpb3]
                  exact hmcf.2
      exact hs

theorem C5_terminal_status_witness :
    ((∀ p, fixture_failing_gen.generate_plan = Except.ok p → p ≠ "") ∧
      (∀ k r, fixture_failing_gen.refine_plan k = Except.ok r → r ≠ "")) ∧
    ((run_pipeline fixture_failing_gen
        (create_context true 5 97 2 ApprovalMode.AUTO)).ctx.status = RunStatus.SUCCESS ∨
      (run_pipeline fixture_failing_gen
        (create_context true 5 97 2 ApprovalMode.AUTO)).ctx.status = RunStatus.FAILED ∨
      (run_pipeline fixture_failing_gen
        (create_context true 5 97 2 ApprovalMode.AUTO)).ctx.status = RunStatus.STUCK) :=
  ⟨⟨fun p h => absurd h (by simp [fixture_failing_gen]),
    fun k r h => by
      simp only [fixture_failing_gen, Except.ok.injEq] at h
      rw [← h]
      decide⟩,
   C5_terminal_status fixture_failing_gen true 5 97 2 ApprovalMode.AUTO
     (fun p h => absurd h (by simp [fixture_failing_gen]))
     (fun k r h => by
       simp only [fixture_failing_gen, Except.ok.injEq] at h
       rw [← h]
       decide)⟩

/-- C9: `_verify_pid` deems a pid to belong to a recorded lock only if a live
process with that id exists AND its command line contains the expected
command prefix; consequently a live process whose command line does not
contain the recorded prefix (a pid reused by an unrelated process), a dead
pid, or a failing `ps` all cause the lock to be reclaimed as stale. -/
theorem C9_verify_pid_sound (alive : Int → Bool) (psCmd : Int → Option String)
    (pid : Int) (cmd : List String) :
    (verify_pid alive psCmd pid cmd = true →
        alive pid = true ∧ ∃ actual, psCmd pid = some actual ∧
          (expected_cmd_substr cmd).toList <:+: actual.toList) ∧
    (∀ actual, psCmd pid = some actual →
        ¬ ((expected_cmd_substr cmd).toList <:+: actual.toList) →
        lock_decision_with_pid alive psCmd pid cmd = LockDecision.reclaimed) ∧
    (alive pid = false → lock_decision_with_pid alive psCmd pid cmd = LockDecision.reclaimed) ∧
    (psCmd pid = none → lock_decision_with_pid alive psCmd pid cmd = LockDecision.reclaimed) := by
  refine ⟨?_, ?_, ?_, ?_⟩
  · intro h
    unfold verify_pid at h
    by_cases ha : alive pid = true
    · refine ⟨ha, ?_⟩
      rw [if_pos ha] at h
      cases hps : psCmd pid with
      | none => rw [hps] at h; exact absurd h (by simp)
      | some actual =>
          rw [hps] at h
          exact ⟨actual, rfl, of_decide_eq_true h⟩
    · rw [if_neg ha] at h
      exact absurd h (by simp)
  · intro actual hps hsub
    unfold lock_decision_with_pid verify_pid
    by_cases ha : alive pid = true
    · rw [if_pos ha, hps]
      rw [if_neg (by simpa using hsub)]
    · rw [if_neg ha]
      simp
  · intro ha
    unfold lock_decision_with_pid verify_pid
    rw [if_neg (by simp [ha])]
  · intro hps
    unfold lock_decision_with_pid verify_pid
    by_cases ha : alive pid = true
    · rw [if_pos ha, hps]
      simp
    · rw [if_neg ha]
      simp

theorem C9_verify_pid_sound_witness :
    ((fun _ : Int => (some "python3 unrelated_tool --serve" : Option String)) 4242 =
        some "python3 unrelated_tool --serve") ∧
    lock_decision_with_pid (fun _ => true) (fun _ => some "python3 unrelated_tool --serve")
      4242 ["ai-loop", "batch", "--issues", "ENG-1"] = LockDecision.reclaimed :=
  ⟨rfl,
   (C9_verify_pid_sound (fun _ => true) (fun _ => some "python3 unrelated_tool --serve")
       4242 ["ai-loop", "batch", "--issues", "ENG-1"]).2.1
     "python3 unrelated_tool --serve" rfl (by decide)⟩

end AiLoop
